import Mathlib

/-!
The tipocket cluster recommender, `pkg/test-infra/tidb/recommend.go`.

A shallow embedding of the cluster recommender and the properties its
specification states about it.

Conventions of the embedding

* Go `string` values are Lean `String`s (sequences of code points); the
  scenario string is assumed to be valid UTF-8, on which splitting at the byte
  `,` and trimming runes agree with the code-point versions below.
* A Go `map[string]string` is an association list in the order of the map
  literal; the nil map is `[]`.
* A Go pointer that may be nil is an `Option`; the three pointers of
  `Recommendation` (`TidbCluster`, `TidbMonitor`, the embedded `Service`) are
  allocated by the only constructor of the package and are kept as values.
* Go struct embedding is `extends`, so promoted fields read as in the source
  (`r.Namespace`, `spec.TiKV.Annotations`).
* `int` and `int32` values are `Int`s; the conversion `int32(x)` wraps
  explicitly (`int32`).
* A run-time panic is the `error` case of `Except Panic`.
* Package-level state that the source reads but does not declare
  (`fixture.Context`, `fixture.Medium`, the three chaos payloads, the two port
  names) is the explicit parameter `Env`.
-/

set_option autoImplicit false

namespace Tipocket

/-! ## Panics -/

/-- Run-time panics reachable from the embedded code. -/
inductive Panic where
  | nilPointerDereference
  | invalidQuantity
  deriving DecidableEq, Repr

/-! ## Package `strings` -/

/-- Go `len(s)`: the length of a string in bytes. -/
def len (s : String) : Nat := s.utf8ByteSize

/-- Split a list of code points at every occurrence of `sep`; always returns at
least one segment. -/
def splitOnChar (sep : Char) : List Char → List (List Char)
  | [] => [[]]
  | c :: cs =>
    if c = sep then [] :: splitOnChar sep cs
    else
      match splitOnChar sep cs with
      | [] => [[c]]
      | seg :: rest => (c :: seg) :: rest

/-- Go `strings.Split(s, sep)` for a one-character separator: `Split "" ','` is
`[""]`, and `n` separators give `n + 1` segments. -/
def Split (s : String) (sep : Char) : List String :=
  (splitOnChar sep s.data).map String.mk

/-- Go `unicode.IsSpace`: the Latin-1 spaces and the code points with the
Unicode White_Space property. -/
def isSpace (c : Char) : Bool :=
  c = '\t' || c = '\n' || c = '\x0b' || c = '\x0c' || c = '\r' || c = ' '
    || c = '\u0085' || c = '\u00a0' || c = '\u1680'
    || (0x2000 ≤ c.toNat && c.toNat ≤ 0x200a)
    || c = '\u2028' || c = '\u2029' || c = '\u202f' || c = '\u205f' || c = '\u3000'

/-- Go `strings.TrimSpace`: drop leading and trailing white space. -/
def TrimSpace (s : String) : String :=
  ⟨(s.data.dropWhile isSpace).rdropWhile isSpace⟩

/-! ## `int32` conversion -/

/-- Go `int32(x)` on an `int`: the value modulo `2^32`, read in two's complement. -/
def int32 (x : Int) : Int := (x + 2 ^ 31) % 2 ^ 32 - 2 ^ 31

/-! ## Package `resource`: quantities -/

namespace resource

/-- A `resource.Quantity`, held as its exact value in thousandths of a unit. -/
structure Quantity where
  milli : Nat
  deriving DecidableEq, Repr

/-- Value of a decimal digit string. -/
def digitsValue (ds : List Char) : Nat :=
  ds.foldl (fun n c => 10 * n + (c.toNat - '0'.toNat)) 0

/-- Multiplier, in thousandths, of a quantity suffix. -/
def suffixMilli (suffix : String) : Option Nat :=
  if suffix = "" then some 1000
  else if suffix = "m" then some 1
  else if suffix = "k" then some (1000 * 10 ^ 3)
  else if suffix = "M" then some (1000 * 10 ^ 6)
  else if suffix = "G" then some (1000 * 10 ^ 9)
  else if suffix = "T" then some (1000 * 10 ^ 12)
  else if suffix = "P" then some (1000 * 10 ^ 15)
  else if suffix = "E" then some (1000 * 10 ^ 18)
  else if suffix = "Ki" then some (1000 * 2 ^ 10)
  else if suffix = "Mi" then some (1000 * 2 ^ 20)
  else if suffix = "Gi" then some (1000 * 2 ^ 30)
  else if suffix = "Ti" then some (1000 * 2 ^ 40)
  else if suffix = "Pi" then some (1000 * 2 ^ 50)
  else if suffix = "Ei" then some (1000 * 2 ^ 60)
  else none

/-- The fragment of `resource.MustParse` the source uses: an unsigned decimal
integer followed by a unit suffix. Anything else panics in this model. -/
def MustParse (str : String) : Except Panic Quantity :=
  let ds := str.data.takeWhile Char.isDigit
  if ds = [] then .error .invalidQuantity
  else
    match suffixMilli ⟨str.data.dropWhile Char.isDigit⟩ with
    | some unit => .ok ⟨digitsValue ds * unit⟩
    | none => .error .invalidQuantity

end resource

/-! ## Package `corev1` -/

namespace corev1

/-- The `corev1.ResourceName` keys: the three the fixtures name
(`fixture.CPU`, `fixture.Memory`, `fixture.Storage`) and any other. -/
inductive ResourceName where
  | cpu
  | memory
  | storage
  | other (name : String)
  deriving DecidableEq, Repr

/-- A `corev1.ResourceList`: a map from resource name to quantity. -/
abbrev ResourceList := List (ResourceName × resource.Quantity)

/-- Map read `l[k]`. -/
def ResourceList.get (l : ResourceList) (k : ResourceName) : Option resource.Quantity :=
  (l.find? (fun e => e.1 = k)).map Prod.snd

/-- Map write `l[k] = q`. -/
def ResourceList.set (l : ResourceList) (k : ResourceName) (q : resource.Quantity) :
    ResourceList :=
  l.filter (fun e => e.1 ≠ k) ++ [(k, q)]

/-- The struct `corev1.ResourceRequirements`. -/
structure ResourceRequirements where
  Limits : ResourceList := []
  Requests : ResourceList := []
  deriving DecidableEq, Repr

/-- The struct `metav1.ObjectMeta`, with the fields the source sets. -/
structure ObjectMeta where
  Name : String := ""
  Namespace : String := ""
  Labels : List (String × String) := []
  deriving DecidableEq, Repr

/-- The struct `corev1.ServicePort`. -/
structure ServicePort where
  Name : String := ""
  Port : Int := 0
  deriving DecidableEq, Repr

/-- The struct `corev1.ServiceSpec`; `ServiceType` is its field `Type`. -/
structure ServiceSpec where
  ServiceType : String := ""
  Ports : List ServicePort := []
  Selector : List (String × String) := []
  deriving DecidableEq, Repr

/-- The struct `corev1.Service`. -/
structure Service extends ObjectMeta where
  Spec : ServiceSpec := {}
  deriving DecidableEq, Repr

/-- The struct `corev1.ConfigMap`. -/
structure ConfigMap extends ObjectMeta where
  Data : List (String × String) := []
  deriving DecidableEq, Repr

end corev1

/-! ## Package `v1alpha1` (tidb-operator API types) -/

namespace v1alpha1

/-- The struct `v1alpha1.ComponentSpec`. -/
structure ComponentSpec where
  Image : String := ""
  Annotations : List (String × String) := []
  deriving DecidableEq, Repr

/-- The struct `v1alpha1.PDReplicationConfig`. -/
structure PDReplicationConfig where
  EnablePlacementRules : Option Bool := none
  deriving DecidableEq, Repr

/-- The struct `v1alpha1.PDConfig`. -/
structure PDConfig where
  Replication : Option PDReplicationConfig := none
  deriving DecidableEq, Repr

/-- The struct `v1alpha1.PDSpec`. -/
structure PDSpec extends ComponentSpec, corev1.ResourceRequirements where
  Replicas : Int := 0
  MaxFailoverCount : Option Int := none
  StorageClassName : Option String := none
  Config : Option PDConfig := none
  deriving DecidableEq, Repr

/-- The struct `v1alpha1.TiKVSpec`. -/
structure TiKVSpec extends ComponentSpec, corev1.ResourceRequirements where
  Replicas : Int := 0
  MaxFailoverCount : Option Int := none
  StorageClassName : Option String := none
  deriving DecidableEq, Repr

/-- The struct `v1alpha1.ServiceSpec`; `ServiceType` is its field `Type`. -/
structure ServiceSpec where
  ServiceType : String := ""
  deriving DecidableEq, Repr

/-- The struct `v1alpha1.TiDBServiceSpec`. -/
structure TiDBServiceSpec extends ServiceSpec where
  ExposeStatus : Option Bool := none
  deriving DecidableEq, Repr

/-- The struct `v1alpha1.TiDBSpec`. -/
structure TiDBSpec extends ComponentSpec, corev1.ResourceRequirements where
  Replicas : Int := 0
  Service : Option TiDBServiceSpec := none
  MaxFailoverCount : Option Int := none
  deriving DecidableEq, Repr

/-- The struct `v1alpha1.StorageClaim`. -/
structure StorageClaim where
  Resources : corev1.ResourceRequirements := {}
  StorageClassName : Option String := none
  deriving DecidableEq, Repr

/-- The struct `v1alpha1.TiFlashSpec`. -/
structure TiFlashSpec extends ComponentSpec, corev1.ResourceRequirements where
  Replicas : Int := 0
  MaxFailoverCount : Option Int := none
  StorageClaims : List StorageClaim := []
  deriving DecidableEq, Repr

/-- The struct `v1alpha1.PumpSpec`. -/
structure PumpSpec extends ComponentSpec, corev1.ResourceRequirements where
  Replicas : Int := 0
  BaseImage : String := ""
  deriving DecidableEq, Repr

/-- The struct `v1alpha1.TidbClusterSpec`. -/
structure TidbClusterSpec where
  PD : PDSpec := {}
  TiDB : TiDBSpec := {}
  TiKV : TiKVSpec := {}
  TiFlash : Option TiFlashSpec := none
  Pump : Option PumpSpec := none
  Timezone : String := ""
  PVReclaimPolicy : String := ""
  EnablePVReclaim : Option Bool := none
  ImagePullPolicy : String := ""
  deriving DecidableEq, Repr

/-- The struct `v1alpha1.TidbCluster`. -/
structure TidbCluster extends corev1.ObjectMeta where
  Spec : TidbClusterSpec := {}
  deriving DecidableEq, Repr

/-- The struct `v1alpha1.TidbClusterRef`. -/
structure TidbClusterRef where
  Namespace : String := ""
  Name : String := ""
  deriving DecidableEq, Repr

/-- The struct `v1alpha1.MonitorContainer`. -/
structure MonitorContainer where
  BaseImage : String := ""
  Version : String := ""
  deriving DecidableEq, Repr

/-- The struct `v1alpha1.PrometheusSpec`. -/
structure PrometheusSpec extends MonitorContainer where
  LogLevel : String := ""
  deriving DecidableEq, Repr

/-- The struct `v1alpha1.GrafanaSpec`. -/
structure GrafanaSpec extends MonitorContainer where
  Service : ServiceSpec := {}
  deriving DecidableEq, Repr

/-- The struct `v1alpha1.InitializerSpec`. -/
structure InitializerSpec extends MonitorContainer where
  deriving DecidableEq, Repr

/-- The struct `v1alpha1.ReloaderSpec`. -/
structure ReloaderSpec extends MonitorContainer where
  deriving DecidableEq, Repr

/-- The struct `v1alpha1.TidbMonitorSpec`. -/
structure TidbMonitorSpec where
  Clusters : List TidbClusterRef := []
  Prometheus : PrometheusSpec := {}
  Grafana : Option GrafanaSpec := none
  Reloader : ReloaderSpec := {}
  Initializer : InitializerSpec := {}
  Persistent : Bool := false
  ImagePullPolicy : String := ""
  deriving DecidableEq, Repr

/-- The struct `v1alpha1.TidbMonitor`. -/
structure TidbMonitor extends corev1.ObjectMeta where
  Spec : TidbMonitorSpec := {}
  deriving DecidableEq, Repr

end v1alpha1

/-! ## Package `fixture` -/

namespace fixture

/-- The fields of the package variable `fixture.Context` that the source reads. -/
structure Context where
  HubAddress : String := ""
  DockerRepository : String := ""
  LocalVolumeStorageClass : String := ""
  TiDBMonitorSvcType : String := ""
  Nemesis : String := ""
  deriving DecidableEq, Repr

/-- The fields of `fixture.TiDBClusterConfig` that the source reads. -/
structure TiDBClusterConfig where
  ImageVersion : String := ""
  PDImage : String := ""
  TiKVImage : String := ""
  TiDBImage : String := ""
  TiFlashImage : String := ""
  TiKVReplicas : Int := 0
  TiFlashReplicas : Int := 0
  deriving DecidableEq, Repr

/-- Modelled from the spec: `fixture.WithStorage` is called by the source but
declared outside it. The spec describes its result as the given resource
profile "plus fixed storage size" (a ResourceAllocation "paired with a storage
quantity"): the parsed size is recorded as the `storage` request and the other
entries of the profile are kept. -/
def WithStorage (r : corev1.ResourceRequirements) (size : String) :
    Except Panic corev1.ResourceRequirements := do
  let q ← resource.MustParse size
  pure { r with Requests := r.Requests.set .storage q }

end fixture

/-- Package-level values the source reads but does not declare. -/
structure Env where
  Context : fixture.Context := {}
  Medium : corev1.ResourceRequirements := {}
  ioChaosConfigTiKV : String := ""
  ioChaosConfigPD : String := ""
  ioChaosConfigTiFlash : String := ""
  PortNameMySQLClient : String := ""
  PortNameStatus : String := ""
  deriving DecidableEq, Repr

/-! ## `recommend.go` -/

/-- The struct `Recommendation` (lines 31-38); `*corev1.Service` is embedded. -/
structure Recommendation extends corev1.Service where
  TidbCluster : v1alpha1.TidbCluster := {}
  TidbMonitor : v1alpha1.TidbMonitor := {}
  InjectionConfigMaps : List corev1.ConfigMap := []
  deriving DecidableEq, Repr

/-- The method `EnablePump` (lines 41-50). -/
def Recommendation.EnablePump (env : Env) (t : Recommendation) (replicas : Int) :
    Recommendation :=
  if t.TidbCluster.Spec.Pump = none then
    { t with
      TidbCluster.Spec.Pump := some {
        Replicas := replicas
        BaseImage := "pingcap/tidb-binlog"
        toResourceRequirements := env.Medium } }
  else t

/-- The function `buildImage` (lines 98-114). -/
def buildImage (ctx : fixture.Context) (name baseVersion image : String) : String :=
  if len image > 0 then image
  else
    let b := ""
    let b := if ctx.HubAddress ≠ "" then b ++ (ctx.HubAddress ++ "/") else b
    let b := b ++ ctx.DockerRepository
    let b := b ++ "/"
    let b := b ++ name
    let b := b ++ ":"
    let b := b ++ baseVersion
    b

/-- The resource literal of the TiFlash storage claim (lines 64-73). -/
def tiflashClaimResources : Except Panic corev1.ResourceRequirements := do
  fixture.WithStorage {
    Requests := [(.cpu, ← resource.MustParse "1000m"), (.memory, ← resource.MustParse "2Gi")]
    Limits := [(.cpu, ← resource.MustParse "4000m"), (.memory, ← resource.MustParse "16Gi")]
  } "50Gi"

/-- The method `EnableTiFlash` (lines 53-78). -/
def Recommendation.EnableTiFlash (env : Env) (t : Recommendation) (image : String)
    (replicas : Int) : Except Panic Recommendation := do
  if t.TidbCluster.Spec.TiFlash = none then
    let claim ← tiflashClaimResources
    pure { t with
      TidbCluster.Spec.TiFlash := some {
        Replicas := int32 replicas
        MaxFailoverCount := some 0
        Image := buildImage env.Context "tiflash" "" image
        StorageClaims := [{
          StorageClassName := some env.Context.LocalVolumeStorageClass
          Resources := claim }] } }
  else pure t

/-- The method `PDReplicas` (lines 81-84). -/
def Recommendation.PDReplicas (t : Recommendation) (replicas : Int) : Recommendation :=
  { t with TidbCluster.Spec.PD.Replicas := replicas }

/-- The method `TiKVReplicas` (lines 87-90). -/
def Recommendation.TiKVReplicas (t : Recommendation) (replicas : Int) : Recommendation :=
  { t with TidbCluster.Spec.TiKV.Replicas := replicas }

/-- The method `TiDBReplicas` (lines 93-96). -/
def Recommendation.TiDBReplicas (t : Recommendation) (replicas : Int) : Recommendation :=
  { t with TidbCluster.Spec.TiDB.Replicas := replicas }

/-- The function `newIOChaosConfigMap` (lines 299-312). -/
def newIOChaosConfigMap (namespace_ component data : String) : corev1.ConfigMap :=
  { Name := "chaosfs-" ++ component
    Namespace := namespace_
    Labels := [("app.kubernetes.io/component", "webhook")]
    Data := [("chaosfs", data)] }

/-- The resource literal of the TiKV role (lines 145-154). -/
def tikvResources : Except Panic corev1.ResourceRequirements := do
  fixture.WithStorage {
    Requests := [(.cpu, ← resource.MustParse "500m"), (.memory, ← resource.MustParse "4Gi")]
    Limits := [(.cpu, ← resource.MustParse "1000m"), (.memory, ← resource.MustParse "16Gi")]
  } "200Gi"

/-- The resource literal of the TiDB role (lines 164-173). -/
def tidbResources : Except Panic corev1.ResourceRequirements := do
  pure {
    Requests := [(.cpu, ← resource.MustParse "1000m"), (.memory, ← resource.MustParse "1Gi")]
    Limits := [(.cpu, ← resource.MustParse "1000m"), (.memory, ← resource.MustParse "16Gi")]
  }

/-- The composite literal that `RecommendedTiDBCluster` starts from
(lines 118-259). -/
def initialRecommendation (env : Env) (ns name : String)
    (clusterConfig : fixture.TiDBClusterConfig) : Except Panic Recommendation := do
  let enablePVReclaim := true
  let exposeStatus := true
  let pdResources ← fixture.WithStorage env.Medium "10Gi"
  let tikv ← tikvResources
  let tidb ← tidbResources
  pure {
    InjectionConfigMaps := []
    TidbCluster := {
      Name := name
      Namespace := ns
      Labels := [("app", "tipocket-tidbcluster"), ("instance", name)]
      Spec := {
        Timezone := "UTC"
        PVReclaimPolicy := "Delete"
        EnablePVReclaim := some enablePVReclaim
        ImagePullPolicy := "Always"
        PD := {
          Replicas := 3
          toResourceRequirements := pdResources
          StorageClassName := some env.Context.LocalVolumeStorageClass
          Image := buildImage env.Context "pd" clusterConfig.ImageVersion clusterConfig.PDImage }
        TiKV := {
          Replicas := int32 clusterConfig.TiKVReplicas
          toResourceRequirements := tikv
          StorageClassName := some env.Context.LocalVolumeStorageClass
          MaxFailoverCount := some (int32 0)
          Image :=
            buildImage env.Context "tikv" clusterConfig.ImageVersion clusterConfig.TiKVImage }
        TiDB := {
          Replicas := 2
          toResourceRequirements := tidb
          Service := some { ServiceType := "NodePort", ExposeStatus := some exposeStatus }
          MaxFailoverCount := some (int32 0)
          Image :=
            buildImage env.Context "tidb" clusterConfig.ImageVersion clusterConfig.TiDBImage } } }
    TidbMonitor := {
      Name := name
      Namespace := ns
      Labels := [("app", "tipocket-tidbmonitor"), ("instance", name)]
      Spec := {
        Clusters := [{ Namespace := ns, Name := name }]
        Persistent := false
        Prometheus := { BaseImage := "prom/prometheus", Version := "v2.11.1", LogLevel := "info" }
        Grafana := some {
          Service := { ServiceType := env.Context.TiDBMonitorSvcType }
          BaseImage := "grafana/grafana"
          Version := "6.0.1" }
        Initializer := { BaseImage := "pingcap/tidb-monitor-initializer", Version := "v3.0.5" }
        Reloader := { BaseImage := "pingcap/tidb-monitor-reloader", Version := "v1.0.1" }
        ImagePullPolicy := "IfNotPresent" } }
    toService := {
      Name := name ++ "-tidb"
      Namespace := ns
      Spec := {
        ServiceType := "NodePort"
        Ports := [
          { Name := env.PortNameMySQLClient, Port := 4000 },
          { Name := env.PortNameStatus, Port := 10080 }]
        Selector := [
          ("app.kubernetes.io/component", "tidb"),
          ("app.kubernetes.io/name", "tidb-cluster")] } } }

/-- The conditional that enables TiFlash and the placement rules
(lines 261-268). -/
def enableTiFlashStep (env : Env) (clusterConfig : fixture.TiDBClusterConfig)
    (r : Recommendation) : Except Panic Recommendation := do
  if clusterConfig.TiFlashReplicas > 0 then
    let r ← r.EnableTiFlash env clusterConfig.TiFlashImage clusterConfig.TiFlashReplicas
    pure { r with
      TidbCluster.Spec.PD.Config :=
        some { Replication := some { EnablePlacementRules := some true } } }
  else pure r

/-- One iteration of the loop over the scenario names (lines 271-294). -/
def nemesisBody (env : Env) (r : Recommendation) (name : String) :
    Except Panic Recommendation :=
  let name := TrimSpace name
  if len name = 0 then
    .ok r
  else if name ∈ ["delay_tikv", "errno_tikv", "mixed_tikv", "readerr_tikv"] then
    let r : Recommendation := { r with
      TidbCluster.Spec.TiKV.Annotations :=
        [("admission-webhook.pingcap.com/request", "chaosfs-tikv")] }
    .ok { r with
      InjectionConfigMaps := r.InjectionConfigMaps ++
        [newIOChaosConfigMap r.Namespace "tikv" env.ioChaosConfigTiKV] }
  else if name ∈ ["delay_pd", "errno_pd", "mixed_pd"] then
    let r : Recommendation := { r with
      TidbCluster.Spec.PD.Annotations :=
        [("admission-webhook.pingcap.com/request", "chaosfs-pd")] }
    .ok { r with
      InjectionConfigMaps := r.InjectionConfigMaps ++
        [newIOChaosConfigMap r.Namespace "pd" env.ioChaosConfigPD] }
  else if name ∈ ["delay_tiflash", "errno_tiflash", "mixed_tiflash", "readerr_tiflash"] then
    match r.TidbCluster.Spec.TiFlash with
    | none => .error .nilPointerDereference
    | some tiflash =>
      let r : Recommendation := { r with
        TidbCluster.Spec.TiFlash := some { tiflash with
          Annotations := [("admission-webhook.pingcap.com/request", "chaosfs-tiflash")] } }
      .ok { r with
        InjectionConfigMaps := r.InjectionConfigMaps ++
          [newIOChaosConfigMap r.Namespace "tiflash" env.ioChaosConfigTiFlash] }
  else
    .ok r

/-- The loop over the scenario names (lines 270-295). -/
def nemesisLoop (env : Env) : Recommendation → List String → Except Panic Recommendation
  | r, [] => .ok r
  | r, name :: names =>
    match nemesisBody env r name with
    | .ok r1 => nemesisLoop env r1 names
    | .error e => .error e

/-- The function `RecommendedTiDBCluster` (lines 117-297). -/
def RecommendedTiDBCluster (env : Env) (ns name : String)
    (clusterConfig : fixture.TiDBClusterConfig) : Except Panic Recommendation := do
  let r ← initialRecommendation env ns name clusterConfig
  let r ← enableTiFlashStep env clusterConfig r
  nemesisLoop env r (Split env.Context.Nemesis ',')

/-! ## Reference definitions

The scenario table and the reference result of the fan-out, written from the
specification, and the predicates the theorems are stated with. -/

/-- The roles that own fault-injection scenarios. -/
inductive ChaosRole where
  | tikv
  | pd
  | tiflash
  deriving DecidableEq, Repr

/-- The component name of a role, as used in document and annotation names. -/
def ChaosRole.component : ChaosRole → String
  | .tikv => "tikv"
  | .pd => "pd"
  | .tiflash => "tiflash"

/-- The payload of a role. -/
def ChaosRole.payload (env : Env) : ChaosRole → String
  | .tikv => env.ioChaosConfigTiKV
  | .pd => env.ioChaosConfigPD
  | .tiflash => env.ioChaosConfigTiFlash

/-- The fixed scenario table of the specification: scenario name and owning role. -/
def scenarioTable : List (String × ChaosRole) :=
  [("delay_tikv", .tikv), ("errno_tikv", .tikv), ("mixed_tikv", .tikv), ("readerr_tikv", .tikv),
   ("delay_pd", .pd), ("errno_pd", .pd), ("mixed_pd", .pd),
   ("delay_tiflash", .tiflash), ("errno_tiflash", .tiflash), ("mixed_tiflash", .tiflash),
   ("readerr_tiflash", .tiflash)]

/-- Table lookup: the owning role of a scenario name, if it is in the table. -/
def scenarioRole (name : String) : Option ChaosRole :=
  (scenarioTable.find? (fun e => e.1 = name)).map Prod.snd

/-- The owning roles of the recognised segments of a scenario string, in order:
split on commas, trim every segment, drop the empty ones, keep those in the table. -/
def recognisedRoles (s : String) : List ChaosRole :=
  (((Split s ',').map TrimSpace).filter (fun seg => seg ≠ "")).filterMap scenarioRole

/-- The instrumentation document of a role in namespace `ns`. -/
def roleDocument (env : Env) (ns : String) (role : ChaosRole) : corev1.ConfigMap :=
  { Name := "chaosfs-" ++ role.component
    Namespace := ns
    Labels := [("app.kubernetes.io/component", "webhook")]
    Data := [("chaosfs", role.payload env)] }

/-- The reference list of instrumentation documents for a scenario string. -/
def referenceConfigMaps (env : Env) (ns s : String) : List corev1.ConfigMap :=
  (recognisedRoles s).map (roleDocument env ns)

/-- The effect of one recognised scenario name on the recommendation: the body
of the `case` of its role (lines 276-293). -/
def applyRole (env : Env) (r : Recommendation) : ChaosRole → Except Panic Recommendation
  | .tikv =>
    let r : Recommendation := { r with
      TidbCluster.Spec.TiKV.Annotations :=
        [("admission-webhook.pingcap.com/request", "chaosfs-tikv")] }
    .ok { r with
      InjectionConfigMaps := r.InjectionConfigMaps ++
        [newIOChaosConfigMap r.Namespace "tikv" env.ioChaosConfigTiKV] }
  | .pd =>
    let r : Recommendation := { r with
      TidbCluster.Spec.PD.Annotations :=
        [("admission-webhook.pingcap.com/request", "chaosfs-pd")] }
    .ok { r with
      InjectionConfigMaps := r.InjectionConfigMaps ++
        [newIOChaosConfigMap r.Namespace "pd" env.ioChaosConfigPD] }
  | .tiflash =>
    match r.TidbCluster.Spec.TiFlash with
    | none => .error .nilPointerDereference
    | some tiflash =>
      let r : Recommendation := { r with
        TidbCluster.Spec.TiFlash := some { tiflash with
          Annotations := [("admission-webhook.pingcap.com/request", "chaosfs-tiflash")] } }
      .ok { r with
        InjectionConfigMaps := r.InjectionConfigMaps ++
          [newIOChaosConfigMap r.Namespace "tiflash" env.ioChaosConfigTiFlash] }

/-- The loop of `RecommendedTiDBCluster` run over the owning roles of the
recognised names. -/
def roleLoop (env : Env) : Recommendation → List ChaosRole → Except Panic Recommendation
  | r, [] => .ok r
  | r, role :: roles =>
    match applyRole env r role with
    | .ok r1 => roleLoop env r1 roles
    | .error e => .error e

/-- The recommendation with everything the scenario loop writes blanked out:
the annotations of PD, TiKV and TiFlash and the list of documents. -/
def Recommendation.withoutChaos (r : Recommendation) : Recommendation :=
  { r with
    TidbCluster.Spec.PD.Annotations := []
    TidbCluster.Spec.TiKV.Annotations := []
    TidbCluster.Spec.TiFlash :=
      r.TidbCluster.Spec.TiFlash.map (fun t => { t with Annotations := [] })
    InjectionConfigMaps := [] }

/-- The invariant `requests[kind] ≤ limits[kind]` of a resource allocation, for
one resource kind: whenever both entries are present they are ordered. -/
def withinLimit (r : corev1.ResourceRequirements) (kind : corev1.ResourceName) : Prop :=
  ∀ a b, r.Requests.get kind = some a → r.Limits.get kind = some b → a.milli ≤ b.milli

/-- The placement-policy flag of the coordinator:
`Spec.PD.Config.Replication.EnablePlacementRules`, if every pointer on the way
is set. -/
def placementRules (r : Recommendation) : Option Bool :=
  (r.TidbCluster.Spec.PD.Config.bind (fun c => c.Replication)).bind
    (fun rep => rep.EnablePlacementRules)

/-- The environment with the scenario string `fixture.Context.Nemesis` set to `s`. -/
def Env.withNemesis (env : Env) (s : String) : Env :=
  { env with Context := { env.Context with Nemesis := s } }

/-- The annotations of the TiFlash role; none when the role is absent. -/
def tiflashAnnotations (r : Recommendation) : List (String × String) :=
  match r.TidbCluster.Spec.TiFlash with
  | some t => t.Annotations
  | none => []

/-- The value of `Spec.PD.Config` that carries the placement-rules flag
(lines 263-267). -/
def placementConfig : v1alpha1.PDConfig :=
  { Replication := some { EnablePlacementRules := some true } }

/-- The scenario strings the builder tolerates without a change of result, on
their comma-separated segments: `Tolerated segs segs1` holds when `segs1` is
`segs` with white space added before and after existing segments and with
segments inserted whose trimmed text is not in the scenario table (empty
segments, white space only, unknown names). -/
inductive Tolerated : List String → List String → Prop where
  | done : Tolerated [] []
  | pad (before after : List Char) (seg : String) (segs segs1 : List String) :
      (∀ c ∈ before, isSpace c = true) → (∀ c ∈ after, isSpace c = true) →
      Tolerated segs segs1 →
      Tolerated (seg :: segs) (⟨before ++ seg.data ++ after⟩ :: segs1)
  | extra (seg : String) (segs segs1 : List String) :
      scenarioRole (TrimSpace seg) = none → Tolerated segs segs1 →
      Tolerated segs (seg :: segs1)

/-- The scenario string `s` has a segment whose trimmed text is one of the
names of `group`. -/
def scenarioIn (s : String) (group : List String) : Prop :=
  ∃ seg ∈ Split s ',', TrimSpace seg ∈ group

/-! ## Auxiliary lemmas -/

theorem len_pos_of_ne_empty (s : String) (h : s ≠ "") : 0 < len s := by
  rcases s with ⟨cs⟩
  cases cs with
  | nil => exact absurd rfl h
  | cons c cs =>
    have : 0 < c.utf8Size := Char.utf8Size_pos c
    simp only [len, String.utf8ByteSize, String.utf8ByteSize.go]
    omega

theorem len_eq_zero_iff (s : String) : len s = 0 ↔ s = "" := by
  constructor
  · intro h
    by_contra hne
    have := len_pos_of_ne_empty s hne
    omega
  · rintro rfl
    rfl

theorem scenarioRole_eq (n : String) :
    scenarioRole n =
      if n ∈ ["delay_tikv", "errno_tikv", "mixed_tikv", "readerr_tikv"] then some .tikv
      else if n ∈ ["delay_pd", "errno_pd", "mixed_pd"] then some .pd
      else if n ∈ ["delay_tiflash", "errno_tiflash", "mixed_tiflash", "readerr_tiflash"] then
        some .tiflash
      else none := by
  by_cases h1 : n = "delay_tikv"
  · subst h1; decide
  by_cases h2 : n = "errno_tikv"
  · subst h2; decide
  by_cases h3 : n = "mixed_tikv"
  · subst h3; decide
  by_cases h4 : n = "readerr_tikv"
  · subst h4; decide
  by_cases h5 : n = "delay_pd"
  · subst h5; decide
  by_cases h6 : n = "errno_pd"
  · subst h6; decide
  by_cases h7 : n = "mixed_pd"
  · subst h7; decide
  by_cases h8 : n = "delay_tiflash"
  · subst h8; decide
  by_cases h9 : n = "errno_tiflash"
  · subst h9; decide
  by_cases h10 : n = "mixed_tiflash"
  · subst h10; decide
  by_cases h11 : n = "readerr_tiflash"
  · subst h11; decide
  have e1 := Ne.symm h1
  have e2 := Ne.symm h2
  have e3 := Ne.symm h3
  have e4 := Ne.symm h4
  have e5 := Ne.symm h5
  have e6 := Ne.symm h6
  have e7 := Ne.symm h7
  have e8 := Ne.symm h8
  have e9 := Ne.symm h9
  have e10 := Ne.symm h10
  have e11 := Ne.symm h11
  simp [scenarioRole, scenarioTable, List.find?, h1, h2, h3, h4, h5, h6, h7, h8, h9, h10, h11,
    e1, e2, e3, e4, e5, e6, e7, e8, e9, e10, e11]

theorem scenarioRole_empty : scenarioRole "" = none := by decide

theorem nemesisBody_eq (env : Env) (r : Recommendation) (seg : String) :
    nemesisBody env r seg =
      match scenarioRole (TrimSpace seg) with
      | none => .ok r
      | some role => applyRole env r role := by
  unfold nemesisBody
  simp only []
  by_cases h0 : len (TrimSpace seg) = 0
  · rw [if_pos h0]
    have : TrimSpace seg = "" := (len_eq_zero_iff _).1 h0
    rw [this, scenarioRole_empty]
  · rw [if_neg h0, scenarioRole_eq]
    by_cases ha : TrimSpace seg ∈ ["delay_tikv", "errno_tikv", "mixed_tikv", "readerr_tikv"]
    · rw [if_pos ha, if_pos ha]
      rfl
    · rw [if_neg ha, if_neg ha]
      by_cases hb : TrimSpace seg ∈ ["delay_pd", "errno_pd", "mixed_pd"]
      · rw [if_pos hb, if_pos hb]
        rfl
      · rw [if_neg hb, if_neg hb]
        by_cases hc : TrimSpace seg ∈
            ["delay_tiflash", "errno_tiflash", "mixed_tiflash", "readerr_tiflash"]
        · rw [if_pos hc, if_pos hc]
          rfl
        · rw [if_neg hc, if_neg hc]

theorem nemesisLoop_eq_roleLoop (env : Env) (names : List String) (r : Recommendation) :
    nemesisLoop env r names =
      roleLoop env r (names.filterMap (fun seg => scenarioRole (TrimSpace seg))) := by
  induction names generalizing r with
  | nil => rfl
  | cons seg rest ih =>
    rw [nemesisLoop, nemesisBody_eq, List.filterMap_cons]
    cases hrole : scenarioRole (TrimSpace seg) with
    | none => exact ih r
    | some role =>
      simp only [roleLoop]
      cases applyRole env r role with
      | error e => rfl
      | ok r1 => exact ih r1

theorem recognisedRoles_eq (s : String) :
    recognisedRoles s =
      (Split s ',').filterMap (fun seg => scenarioRole (TrimSpace seg)) := by
  unfold recognisedRoles
  induction Split s ',' with
  | nil => rfl
  | cons seg rest ih =>
    rw [List.map_cons, List.filterMap_cons]
    by_cases he : TrimSpace seg = ""
    · rw [List.filter_cons_of_neg (by simpa using he), ih, he, scenarioRole_empty]
    · rw [List.filter_cons_of_pos (by simpa using he), List.filterMap_cons, ih]

theorem applyRole_frame (env : Env) (r r1 : Recommendation) (role : ChaosRole)
    (h : applyRole env r role = .ok r1) :
    r1.withoutChaos = r.withoutChaos ∧
      r1.InjectionConfigMaps = r.InjectionConfigMaps ++ [roleDocument env r.Namespace role] := by
  obtain ⟨svc, ⟨meta, ⟨pd, tidb, tikv, tf, pump, tz, pol, en, pull⟩⟩, mon, cms⟩ := r
  cases role with
  | tikv => cases h; exact ⟨rfl, rfl⟩
  | pd => cases h; exact ⟨rfl, rfl⟩
  | tiflash =>
    cases tf with
    | none => cases h
    | some t => cases h; exact ⟨rfl, rfl⟩

theorem withoutChaos_namespace (r r1 : Recommendation)
    (h : r1.withoutChaos = r.withoutChaos) : r1.Namespace = r.Namespace :=
  congrArg (fun x => x.Namespace) h

theorem roleLoop_frame (env : Env) (roles : List ChaosRole) (r r1 : Recommendation)
    (h : roleLoop env r roles = .ok r1) :
    r1.withoutChaos = r.withoutChaos ∧
      r1.InjectionConfigMaps =
        r.InjectionConfigMaps ++ roles.map (roleDocument env r.Namespace) := by
  induction roles generalizing r with
  | nil =>
    cases h
    exact ⟨rfl, by simp⟩
  | cons role rest ih =>
    rw [roleLoop] at h
    cases hr : applyRole env r role with
    | error e => rw [hr] at h; cases h
    | ok r2 =>
      rw [hr] at h
      obtain ⟨hf, hc⟩ := applyRole_frame env r r2 role hr
      obtain ⟨hf1, hc1⟩ := ih r2 h
      refine ⟨hf1.trans hf, ?_⟩
      rw [hc1, hc, withoutChaos_namespace r r2 hf]
      simp

theorem build_decompose (env : Env) (ns name : String) (cfg : fixture.TiDBClusterConfig)
    (r : Recommendation) (h : RecommendedTiDBCluster env ns name cfg = .ok r) :
    ∃ r0 r1, initialRecommendation env ns name cfg = .ok r0 ∧
      enableTiFlashStep env cfg r0 = .ok r1 ∧
      roleLoop env r1 (recognisedRoles env.Context.Nemesis) = .ok r := by
  unfold RecommendedTiDBCluster at h
  cases h0 : initialRecommendation env ns name cfg with
  | error e => rw [h0] at h; cases h
  | ok r0 =>
    rw [h0] at h
    cases h1 : enableTiFlashStep env cfg r0 with
    | error e =>
      simp only [bind, Except.bind] at h
      rw [h1] at h; cases h
    | ok r1 =>
      simp only [bind, Except.bind] at h
      rw [h1] at h
      refine ⟨r0, r1, rfl, h1, ?_⟩
      rw [recognisedRoles_eq, ← nemesisLoop_eq_roleLoop]
      exact h

theorem preLoop_tiflash (env : Env) (ns name : String) (cfg : fixture.TiDBClusterConfig)
    (r0 r1 : Recommendation) (h0 : initialRecommendation env ns name cfg = .ok r0)
    (h1 : enableTiFlashStep env cfg r0 = .ok r1) :
    (r1.TidbCluster.Spec.TiFlash.isSome ↔ 0 < cfg.TiFlashReplicas) ∧
    (placementRules r1 = some true ↔ 0 < cfg.TiFlashReplicas) ∧
    (cfg.TiFlashReplicas ≤ 0 → r1.TidbCluster.Spec.PD.Config = none) := by
  have e0 : initialRecommendation env ns name cfg = .ok _ := rfl
  cases e0.symm.trans h0
  unfold enableTiFlashStep at h1
  by_cases hpos : cfg.TiFlashReplicas > 0
  · rw [if_pos hpos] at h1
    cases h1
    refine ⟨by simpa using hpos, by simpa [placementRules] using hpos, fun hle => ?_⟩
    omega
  · rw [if_neg hpos] at h1
    cases h1
    refine ⟨by simpa using hpos, by simpa [placementRules] using hpos, fun _ => rfl⟩

theorem roleLoop_isOk_iff (env : Env) (roles : List ChaosRole) (r : Recommendation) :
    (∃ r1, roleLoop env r roles = .ok r1) ↔
      (r.TidbCluster.Spec.TiFlash.isSome = true ∨ ChaosRole.tiflash ∉ roles) := by
  induction roles generalizing r with
  | nil => simp [roleLoop]
  | cons role rest ih =>
    rw [roleLoop]
    cases hr : applyRole env r role with
    | error e =>
      obtain ⟨svc, ⟨meta, ⟨pd, tidb, tikv, tf, pump, tz, pol, en, pull⟩⟩, mon, cms⟩ := r
      cases role with
      | tikv => cases hr
      | pd => cases hr
      | tiflash =>
        cases tf with
        | none => simp
        | some t => cases hr
    | ok r2 =>
      have hf := (applyRole_frame env r r2 role hr).1
      have hs : r2.TidbCluster.Spec.TiFlash.isSome = r.TidbCluster.Spec.TiFlash.isSome := by
        have := congrArg (fun x => x.TidbCluster.Spec.TiFlash.isSome) hf
        simpa [Recommendation.withoutChaos] using this
      have hrole : role = ChaosRole.tiflash → r.TidbCluster.Spec.TiFlash.isSome = true := by
        rintro rfl
        obtain ⟨svc, ⟨meta, ⟨pd, tidb, tikv, tf, pump, tz, pol, en, pull⟩⟩, mon, cms⟩ := r
        cases tf with
        | none => cases hr
        | some t => rfl
      simp only [ih r2, hs, List.mem_cons, not_or]
      constructor
      · rintro (h | h)
        · exact Or.inl h
        · by_cases hsome : r.TidbCluster.Spec.TiFlash.isSome = true
          · exact Or.inl hsome
          · exact Or.inr ⟨fun he => hsome (hrole he.symm), h⟩
      · rintro (h | ⟨_, h⟩)
        · exact Or.inl h
        · exact Or.inr h

theorem build_isOk_iff (env : Env) (ns name : String) (cfg : fixture.TiDBClusterConfig) :
    (∃ r, RecommendedTiDBCluster env ns name cfg = .ok r) ↔
      (0 < cfg.TiFlashReplicas ∨ ChaosRole.tiflash ∉ recognisedRoles env.Context.Nemesis) := by
  obtain ⟨r0, h0⟩ : ∃ r0, initialRecommendation env ns name cfg = .ok r0 := ⟨_, rfl⟩
  obtain ⟨r1, h1⟩ : ∃ r1, enableTiFlashStep env cfg r0 = .ok r1 := by
    have e0 : initialRecommendation env ns name cfg = .ok _ := rfl
    cases e0.symm.trans h0
    unfold enableTiFlashStep
    by_cases hpos : cfg.TiFlashReplicas > 0
    · rw [if_pos hpos]; exact ⟨_, rfl⟩
    · rw [if_neg hpos]; exact ⟨_, rfl⟩
  have hb : RecommendedTiDBCluster env ns name cfg =
      roleLoop env r1 (recognisedRoles env.Context.Nemesis) := by
    unfold RecommendedTiDBCluster
    rw [h0]
    simp only [bind, Except.bind]
    rw [h1, recognisedRoles_eq, ← nemesisLoop_eq_roleLoop]
  rw [hb, roleLoop_isOk_iff, (preLoop_tiflash env ns name cfg r0 r1 h0 h1).1]

theorem build_injectionConfigMaps (env : Env) (ns name : String)
    (cfg : fixture.TiDBClusterConfig) (r : Recommendation)
    (h : RecommendedTiDBCluster env ns name cfg = .ok r) :
    r.InjectionConfigMaps = (recognisedRoles env.Context.Nemesis).map (roleDocument env ns) := by
  obtain ⟨r0, r1, h0, h1, hl⟩ := build_decompose env ns name cfg r h
  have hc := (roleLoop_frame env _ r1 r hl).2
  have hpre : r1.InjectionConfigMaps = [] ∧ r1.Namespace = ns := by
    have e0 : initialRecommendation env ns name cfg = .ok _ := rfl
    cases e0.symm.trans h0
    unfold enableTiFlashStep at h1
    by_cases hpos : cfg.TiFlashReplicas > 0
    · rw [if_pos hpos] at h1
      cases h1
      exact ⟨rfl, rfl⟩
    · rw [if_neg hpos] at h1
      cases h1
      exact ⟨rfl, rfl⟩
  rw [hc, hpre.1, hpre.2, List.nil_append]

theorem component_name_inj (a b : ChaosRole) :
    "chaosfs-" ++ a.component = "chaosfs-" ++ b.component ↔ a = b := by
  cases a <;> cases b <;> decide

theorem count_documents_of_role (env : Env) (ns : String) (role : ChaosRole)
    (roles : List ChaosRole) :
    ((roles.map (roleDocument env ns)).filter
        (fun d => d.Name = "chaosfs-" ++ role.component)).length = roles.count role := by
  induction roles with
  | nil => rfl
  | cons x rest ih =>
    rw [List.map_cons]
    by_cases hx : x = role
    · subst hx
      rw [List.filter_cons_of_pos (by simp [roleDocument]), List.length_cons, ih,
        List.count_cons_self]
    · have hne : ¬ "chaosfs-" ++ x.component = "chaosfs-" ++ role.component :=
        fun he => hx ((component_name_inj x role).1 he)
      rw [List.filter_cons_of_neg (by simpa [roleDocument] using hne), ih,
        List.count_cons_of_ne (fun he => hx he.symm)]

theorem ResourceList_get_set_of_ne (l : corev1.ResourceList) (k k1 : corev1.ResourceName)
    (q : resource.Quantity) (h : k1 ≠ k) : (l.set k q).get k1 = l.get k1 := by
  unfold corev1.ResourceList.get corev1.ResourceList.set
  have hp : (fun e : corev1.ResourceName × resource.Quantity =>
      decide (decide (e.1 ≠ k) = true ∧ decide (e.1 = k1) = true)) =
        fun e => decide (e.1 = k1) := by
    funext e
    by_cases he : e.1 = k1
    · have hne : e.1 ≠ k := fun hk => h (he.symm.trans hk)
      simp [he, hne, h]
    · simp [he]
  have hlast : List.find? (fun e : corev1.ResourceName × resource.Quantity =>
      decide (e.1 = k1)) [(k, q)] = none := by
    simp [h.symm]
  rw [List.find?_append, List.find?_filter, hp, hlast, Option.or_none]

theorem tiflash_frame (r r1 : Recommendation) (hf : r.withoutChaos = r1.withoutChaos)
    (t : v1alpha1.TiFlashSpec) (ht : r.TidbCluster.Spec.TiFlash = some t) :
    ∃ t1, r1.TidbCluster.Spec.TiFlash = some t1 ∧
      t.toResourceRequirements = t1.toResourceRequirements ∧
      t.Replicas = t1.Replicas ∧ t.MaxFailoverCount = t1.MaxFailoverCount ∧
      t.StorageClaims = t1.StorageClaims ∧ t.Image = t1.Image := by
  have h := congrArg (fun x => x.TidbCluster.Spec.TiFlash) hf
  simp only [Recommendation.withoutChaos, ht, Option.map_some'] at h
  cases ht1 : r1.TidbCluster.Spec.TiFlash with
  | none => rw [ht1] at h; cases h
  | some t1 =>
    rw [ht1] at h
    simp only [Option.map_some', Option.some.injEq] at h
    exact ⟨t1, rfl, congrArg (fun x => x.toResourceRequirements) h,
      congrArg (fun x => x.Replicas) h, congrArg (fun x => x.MaxFailoverCount) h,
      congrArg (fun x => x.StorageClaims) h, congrArg (fun x => x.Image) h⟩

theorem preLoop_roles (env : Env) (ns name : String) (cfg : fixture.TiDBClusterConfig)
    (r0 r1 : Recommendation) (h0 : initialRecommendation env ns name cfg = .ok r0)
    (h1 : enableTiFlashStep env cfg r0 = .ok r1) :
    r1.TidbCluster.Spec.PD.toResourceRequirements =
        { env.Medium with Requests := env.Medium.Requests.set .storage ⟨10737418240000⟩ } ∧
      r1.TidbCluster.Spec.TiKV.toResourceRequirements =
        { Requests := [(.cpu, ⟨500⟩), (.memory, ⟨4294967296000⟩),
            (.storage, ⟨214748364800000⟩)]
          Limits := [(.cpu, ⟨1000⟩), (.memory, ⟨17179869184000⟩)] } ∧
      r1.TidbCluster.Spec.TiDB.toResourceRequirements =
        { Requests := [(.cpu, ⟨1000⟩), (.memory, ⟨1073741824000⟩)]
          Limits := [(.cpu, ⟨1000⟩), (.memory, ⟨17179869184000⟩)] } ∧
      r1.TidbCluster.Spec.PD.MaxFailoverCount = none ∧
      r1.TidbCluster.Spec.TiKV.MaxFailoverCount = some 0 ∧
      r1.TidbCluster.Spec.TiDB.MaxFailoverCount = some 0 ∧
      r1.TidbCluster.Spec.Pump = none ∧
      (∀ t, r1.TidbCluster.Spec.TiFlash = some t →
        t.toResourceRequirements = {} ∧ t.MaxFailoverCount = some 0 ∧
        t.StorageClaims =
          [{ StorageClassName := some env.Context.LocalVolumeStorageClass
             Resources :=
              { Requests := [(.cpu, ⟨1000⟩), (.memory, ⟨2147483648000⟩),
                  (.storage, ⟨53687091200000⟩)]
                Limits := [(.cpu, ⟨4000⟩), (.memory, ⟨17179869184000⟩)] } }]) := by
  have e0 : initialRecommendation env ns name cfg = .ok _ := rfl
  cases e0.symm.trans h0
  unfold enableTiFlashStep at h1
  by_cases hpos : cfg.TiFlashReplicas > 0
  · rw [if_pos hpos] at h1
    cases h1
    refine ⟨rfl, rfl, rfl, rfl, rfl, rfl, rfl, fun t ht => ?_⟩
    cases ht
    exact ⟨rfl, rfl, rfl⟩
  · rw [if_neg hpos] at h1
    cases h1
    refine ⟨rfl, rfl, rfl, rfl, rfl, rfl, rfl, fun t ht => ?_⟩
    cases ht

theorem withinLimit_of_entries (res : corev1.ResourceRequirements)
    (kind : corev1.ResourceName) (a b : resource.Quantity)
    (ha : res.Requests.get kind = some a) (hb : res.Limits.get kind = some b)
    (hab : a.milli ≤ b.milli) : withinLimit res kind := by
  intro a1 b1 ha1 hb1
  rw [ha] at ha1
  rw [hb] at hb1
  cases ha1
  cases hb1
  exact hab

/-! ## Claims -/

/-- C1, on the code: with `TiFlashReplicas = 0` and the scenario string
"delay_tiflash" the build does not return a Recommendation: whatever the other
inputs are, it panics on the nil TiFlash role when it sets the annotation. -/
theorem build_panics_on_tiflash_scenario_without_role (env : Env) (ns name : String)
    (cfg : fixture.TiDBClusterConfig) :
    RecommendedTiDBCluster
        { env with Context := { env.Context with Nemesis := "delay_tiflash" } } ns name
        { cfg with TiFlashReplicas := 0 } =
      .error .nilPointerDereference := by
  rfl

/-- C2: whenever the build returns, the TiFlash role is present iff
`TiFlashReplicas > 0`, the placement-rules flag is set to true iff the TiFlash
role is present, and for `TiFlashReplicas ≤ 0` the PD configuration is absent. -/
theorem tiflash_present_iff_replicas_pos (env : Env) (ns name : String)
    (cfg : fixture.TiDBClusterConfig) (r : Recommendation)
    (h : RecommendedTiDBCluster env ns name cfg = .ok r) :
    (r.TidbCluster.Spec.TiFlash.isSome = true ↔ 0 < cfg.TiFlashReplicas) ∧
    (placementRules r = some true ↔ r.TidbCluster.Spec.TiFlash.isSome = true) ∧
    (cfg.TiFlashReplicas ≤ 0 → r.TidbCluster.Spec.PD.Config = none) := by
  obtain ⟨r0, r1, h0, h1, hl⟩ := build_decompose env ns name cfg r h
  obtain ⟨hT, hP, hC⟩ := preLoop_tiflash env ns name cfg r0 r1 h0 h1
  have hf := (roleLoop_frame env _ r1 r hl).1
  have hs : r.TidbCluster.Spec.TiFlash.isSome = r1.TidbCluster.Spec.TiFlash.isSome := by
    have := congrArg (fun x => x.TidbCluster.Spec.TiFlash.isSome) hf
    simpa [Recommendation.withoutChaos] using this
  have hc : r.TidbCluster.Spec.PD.Config = r1.TidbCluster.Spec.PD.Config :=
    congrArg (fun x => x.TidbCluster.Spec.PD.Config) hf
  have hp : placementRules r = placementRules r1 := by
    unfold placementRules
    rw [hc]
  refine ⟨by rw [hs]; exact hT, by rw [hp, hs, hP, hT], fun hle => ?_⟩
  rw [hc]
  exact hC hle

/-- Witness of C2: a build with two TiFlash replicas and the scenario
"delay_tiflash". -/
theorem tiflash_present_iff_replicas_pos_witness :
    ∃ r, RecommendedTiDBCluster { Context := { Nemesis := "delay_tiflash" } } "ns1" "c1"
        { TiFlashReplicas := 2 } = .ok r ∧
      (r.TidbCluster.Spec.TiFlash.isSome = true ↔ (0 : Int) < 2) ∧
      (placementRules r = some true ↔ r.TidbCluster.Spec.TiFlash.isSome = true) ∧
      ((2 : Int) ≤ 0 → r.TidbCluster.Spec.PD.Config = none) :=
  ⟨_, rfl, tiflash_present_iff_replicas_pos
    { Context := { Nemesis := "delay_tiflash" } } "ns1" "c1" { TiFlashReplicas := 2 } _ rfl⟩

/-- C3: whenever the build returns, the list of instrumentation documents is
the reference list of the scenario string (split on commas, trim, drop empty
segments, keep the names of the table, map each to the document of its role,
in order), and its length is the number of recognised segments. -/
theorem injectionConfigMaps_eq_reference (env : Env) (ns name : String)
    (cfg : fixture.TiDBClusterConfig) (r : Recommendation)
    (h : RecommendedTiDBCluster env ns name cfg = .ok r) :
    r.InjectionConfigMaps = referenceConfigMaps env ns env.Context.Nemesis ∧
      r.InjectionConfigMaps.length = (recognisedRoles env.Context.Nemesis).length := by
  have he := build_injectionConfigMaps env ns name cfg r h
  refine ⟨he, ?_⟩
  rw [he, List.length_map]

/-- Witness of C3: for "delay_tikv, errno_pd,, unknown_x" the list has exactly
two documents, the one of tikv followed by the one of pd. -/
theorem injectionConfigMaps_eq_reference_witness :
    ∃ r, RecommendedTiDBCluster
        { Context := { Nemesis := "delay_tikv, errno_pd,, unknown_x" },
          ioChaosConfigTiKV := "payload-tikv", ioChaosConfigPD := "payload-pd" }
        "ns1" "c1" {} = .ok r ∧
      r.InjectionConfigMaps =
        [{ Name := "chaosfs-tikv", Namespace := "ns1",
           Labels := [("app.kubernetes.io/component", "webhook")],
           Data := [("chaosfs", "payload-tikv")] },
         { Name := "chaosfs-pd", Namespace := "ns1",
           Labels := [("app.kubernetes.io/component", "webhook")],
           Data := [("chaosfs", "payload-pd")] }] ∧
      r.InjectionConfigMaps.length = 2 :=
  ⟨_, rfl,
    (injectionConfigMaps_eq_reference
      { Context := { Nemesis := "delay_tikv, errno_pd,, unknown_x" },
        ioChaosConfigTiKV := "payload-tikv", ioChaosConfigPD := "payload-pd" }
      "ns1" "c1" {} _ rfl).1.trans (by decide),
    (injectionConfigMaps_eq_reference
      { Context := { Nemesis := "delay_tikv, errno_pd,, unknown_x" },
        ioChaosConfigTiKV := "payload-tikv", ioChaosConfigPD := "payload-pd" }
      "ns1" "c1" {} _ rfl).2.trans (by decide)⟩

/-- C4, on the code: the documents are not deduplicated. For the scenario string
"delay_tikv,errno_tikv" the build returns a list in which two documents share
a name. -/
theorem documents_not_deduplicated :
    ∃ r, RecommendedTiDBCluster { Context := { Nemesis := "delay_tikv,errno_tikv" } } "ns1" "c1"
        {} = .ok r ∧
      ¬ (r.InjectionConfigMaps.map (fun d => d.Name)).Nodup :=
  ⟨_, rfl, by decide⟩

/-- C4, amended: whenever the build returns, the list holds one document per
recognised scenario name, in the order of the names: the document names are the
names "chaosfs-" ++ role of the recognised segments in order, the number of
documents of a role is the number of recognised names of that role, and no two
documents share a name exactly when no role owns two recognised names. -/
theorem documents_one_per_recognised_name (env : Env) (ns name : String)
    (cfg : fixture.TiDBClusterConfig) (r : Recommendation)
    (h : RecommendedTiDBCluster env ns name cfg = .ok r) :
    r.InjectionConfigMaps.map (fun d => d.Name) =
        (recognisedRoles env.Context.Nemesis).map (fun role => "chaosfs-" ++ role.component) ∧
      (∀ role : ChaosRole,
        (r.InjectionConfigMaps.filter
            (fun d => d.Name = "chaosfs-" ++ role.component)).length =
          (recognisedRoles env.Context.Nemesis).count role) ∧
      ((r.InjectionConfigMaps.map (fun d => d.Name)).Nodup ↔
        (recognisedRoles env.Context.Nemesis).Nodup) := by
  have he := build_injectionConfigMaps env ns name cfg r h
  have hn : r.InjectionConfigMaps.map (fun d => d.Name) =
      (recognisedRoles env.Context.Nemesis).map (fun role => "chaosfs-" ++ role.component) := by
    rw [he, List.map_map]
    rfl
  refine ⟨hn, fun role => ?_, ?_⟩
  · rw [he]
    exact count_documents_of_role env ns role _
  · rw [hn]
    exact List.nodup_map_iff (fun a b hab => (component_name_inj a b).1 hab)

/-- Witness of the amended C4: "delay_tikv,delay_pd,errno_tikv" gives the
documents of tikv, pd and tikv, in this order. -/
theorem documents_one_per_recognised_name_witness :
    ∃ r, RecommendedTiDBCluster { Context := { Nemesis := "delay_tikv,delay_pd,errno_tikv" } }
        "ns1" "c1" {} = .ok r ∧
      r.InjectionConfigMaps.map (fun d => d.Name) =
        ["chaosfs-tikv", "chaosfs-pd", "chaosfs-tikv"] :=
  ⟨_, rfl,
    (documents_one_per_recognised_name
      { Context := { Nemesis := "delay_tikv,delay_pd,errno_tikv" } } "ns1" "c1" {} _ rfl).1.trans
      (by decide)⟩

/-- C5: a non-empty explicit image is returned verbatim, whatever the component
name, the base version, the registry mirror and the repository are. -/
theorem buildImage_override (ctx : fixture.Context) (name baseVersion image : String)
    (h : image ≠ "") : buildImage ctx name baseVersion image = image := by
  unfold buildImage
  rw [if_pos (len_pos_of_ne_empty image h)]

/-- Witness of C5: the override "registry.local/pd:dev". -/
theorem buildImage_override_witness :
    "registry.local/pd:dev" ≠ "" ∧
      buildImage { HubAddress := "hub.example", DockerRepository := "pingcap" } "pd" "v4.0.0"
        "registry.local/pd:dev" = "registry.local/pd:dev" :=
  ⟨by decide, buildImage_override _ _ _ _ (by decide)⟩

/-- C6: with an empty override the reference is composed exactly. Without a
mirror it is `DockerRepository/name:baseVersion`, and not that reference
behind an empty mirror segment; with a mirror it is
`HubAddress/DockerRepository/name:baseVersion`; an empty base version gives a
reference that ends in ":". The function is total. -/
theorem buildImage_compose (ctx : fixture.Context) (name baseVersion : String) :
    (ctx.HubAddress = "" →
      buildImage ctx name baseVersion "" =
          ctx.DockerRepository ++ "/" ++ name ++ ":" ++ baseVersion ∧
        buildImage ctx name baseVersion "" ≠
          "" ++ "/" ++ ctx.DockerRepository ++ "/" ++ name ++ ":" ++ baseVersion) ∧
    (ctx.HubAddress ≠ "" →
      buildImage ctx name baseVersion "" =
        ctx.HubAddress ++ "/" ++ ctx.DockerRepository ++ "/" ++ name ++ ":" ++ baseVersion) ∧
    (∃ reference, buildImage ctx name "" "" = reference ++ ":") := by
  have hlen : ¬ len "" > 0 := by decide
  refine ⟨fun hhub => ?_, fun hhub => ?_, ?_⟩
  · have he : buildImage ctx name baseVersion "" =
        ctx.DockerRepository ++ "/" ++ name ++ ":" ++ baseVersion := by
      unfold buildImage
      rw [if_neg hlen]
      simp only [hhub, ne_eq, not_true_eq_false, if_false, String.empty_append]
    refine ⟨he, fun hbad => ?_⟩
    rw [he] at hbad
    have := congrArg String.length hbad
    simp only [String.length_append] at this
    have h1 : "/".length = 1 := rfl
    have h0 : "".length = 0 := rfl
    omega
  · unfold buildImage
    rw [if_neg hlen]
    simp only [ne_eq, hhub, not_false_eq_true, if_true, String.empty_append,
      String.append_assoc]
  · unfold buildImage
    rw [if_neg hlen]
    simp only [String.append_empty]
    exact ⟨_, rfl⟩

/-- Witness of C6: the PD image without and with a registry mirror. -/
theorem buildImage_compose_witness :
    buildImage { DockerRepository := "pingcap" } "pd" "v4.0.0" "" = "pingcap/pd:v4.0.0" ∧
      buildImage { HubAddress := "hub.example", DockerRepository := "pingcap" } "pd" "v4.0.0"
        "" = "hub.example/pingcap/pd:v4.0.0" :=
  ⟨((buildImage_compose { DockerRepository := "pingcap" } "pd" "v4.0.0").1 rfl).1.trans
      (by decide),
    ((buildImage_compose { HubAddress := "hub.example", DockerRepository := "pingcap" } "pd"
      "v4.0.0").2.1 (by decide)).trans (by decide)⟩

/-- C7: on a Recommendation without a Pump role, `EnablePump a` followed by
`EnablePump b` is `EnablePump a` alone, and the replica count of the Pump role
is `a`, the count of the first call. -/
theorem enablePump_idempotent (env : Env) (r : Recommendation) (a b : Int)
    (h : r.TidbCluster.Spec.Pump = none) :
    (r.EnablePump env a).EnablePump env b = r.EnablePump env a ∧
      ((r.EnablePump env a).EnablePump env b).TidbCluster.Spec.Pump.map (fun p => p.Replicas) =
        some a := by
  have h1 : (r.EnablePump env a).TidbCluster.Spec.Pump =
      some { Replicas := a, BaseImage := "pingcap/tidb-binlog",
             toResourceRequirements := env.Medium } := by
    unfold Recommendation.EnablePump
    rw [if_pos h]
  have h2 : (r.EnablePump env a).EnablePump env b = r.EnablePump env a := by
    generalize r.EnablePump env a = r1 at h1 ⊢
    unfold Recommendation.EnablePump
    rw [if_neg (by rw [h1]; exact Option.some_ne_none _)]
  refine ⟨h2, ?_⟩
  rw [h2, h1]
  rfl

/-- Witness of C7: two calls with the counts 1 and 5 on a freshly built
Recommendation. -/
theorem enablePump_idempotent_witness :
    ∃ r, RecommendedTiDBCluster {} "ns1" "c1" {} = .ok r ∧
      (r.EnablePump {} 1).EnablePump {} 5 = r.EnablePump {} 1 ∧
      ((r.EnablePump {} 1).EnablePump {} 5).TidbCluster.Spec.Pump.map (fun p => p.Replicas) =
        some 1 :=
  ⟨_, rfl, enablePump_idempotent {} _ 1 5 rfl⟩

/-- C8: whenever the build returns, `requests[kind] ≤ limits[kind]` holds for
cpu and memory in the allocation of every role, given that the shared medium
profile satisfies it: PD carries the entries of `fixture.Medium`, TiKV has
500m ≤ 1000m cpu and 4Gi ≤ 16Gi memory, TiDB 1000m ≤ 1000m and 1Gi ≤ 16Gi, the
TiFlash storage claim, when the role is present, 1000m ≤ 4000m and 2Gi ≤ 16Gi,
and there is no Pump role. Quantities are compared in thousandths of a unit. -/
theorem requests_within_limits (env : Env) (ns name : String)
    (cfg : fixture.TiDBClusterConfig) (r : Recommendation) (kind : corev1.ResourceName)
    (hk : kind = .cpu ∨ kind = .memory) (hM : withinLimit env.Medium kind)
    (h : RecommendedTiDBCluster env ns name cfg = .ok r) :
    (withinLimit r.TidbCluster.Spec.PD.toResourceRequirements kind ∧
      r.TidbCluster.Spec.PD.Requests.get kind = env.Medium.Requests.get kind ∧
      r.TidbCluster.Spec.PD.Limits.get kind = env.Medium.Limits.get kind) ∧
    (withinLimit r.TidbCluster.Spec.TiKV.toResourceRequirements kind ∧
      r.TidbCluster.Spec.TiKV.Requests.get .cpu = some ⟨500⟩ ∧
      r.TidbCluster.Spec.TiKV.Limits.get .cpu = some ⟨1000⟩ ∧
      r.TidbCluster.Spec.TiKV.Requests.get .memory = some ⟨4 * 2 ^ 30 * 1000⟩ ∧
      r.TidbCluster.Spec.TiKV.Limits.get .memory = some ⟨16 * 2 ^ 30 * 1000⟩) ∧
    (withinLimit r.TidbCluster.Spec.TiDB.toResourceRequirements kind ∧
      r.TidbCluster.Spec.TiDB.Requests.get .cpu = some ⟨1000⟩ ∧
      r.TidbCluster.Spec.TiDB.Limits.get .cpu = some ⟨1000⟩ ∧
      r.TidbCluster.Spec.TiDB.Requests.get .memory = some ⟨1 * 2 ^ 30 * 1000⟩ ∧
      r.TidbCluster.Spec.TiDB.Limits.get .memory = some ⟨16 * 2 ^ 30 * 1000⟩) ∧
    (∀ t, r.TidbCluster.Spec.TiFlash = some t →
      withinLimit t.toResourceRequirements kind ∧
      t.StorageClaims.length = 1 ∧
      ∀ c ∈ t.StorageClaims, withinLimit c.Resources kind ∧
        c.Resources.Requests.get .cpu = some ⟨1000⟩ ∧
        c.Resources.Limits.get .cpu = some ⟨4000⟩ ∧
        c.Resources.Requests.get .memory = some ⟨2 * 2 ^ 30 * 1000⟩ ∧
        c.Resources.Limits.get .memory = some ⟨16 * 2 ^ 30 * 1000⟩) ∧
    r.TidbCluster.Spec.Pump = none := by
  obtain ⟨r0, r1, h0, h1, hl⟩ := build_decompose env ns name cfg r h
  have hf := (roleLoop_frame env _ r1 r hl).1
  obtain ⟨pPD, pTiKV, pTiDB, -, -, -, pPump, pTiFlash⟩ := preLoop_roles env ns name cfg r0 r1 h0 h1
  have hpd : r.TidbCluster.Spec.PD.toResourceRequirements =
      r1.TidbCluster.Spec.PD.toResourceRequirements :=
    congrArg (fun x => x.TidbCluster.Spec.PD.toResourceRequirements) hf
  have htikv : r.TidbCluster.Spec.TiKV.toResourceRequirements =
      r1.TidbCluster.Spec.TiKV.toResourceRequirements :=
    congrArg (fun x => x.TidbCluster.Spec.TiKV.toResourceRequirements) hf
  have htidb : r.TidbCluster.Spec.TiDB.toResourceRequirements =
      r1.TidbCluster.Spec.TiDB.toResourceRequirements :=
    congrArg (fun x => x.TidbCluster.Spec.TiDB.toResourceRequirements) hf
  have hpump : r.TidbCluster.Spec.Pump = r1.TidbCluster.Spec.Pump :=
    congrArg (fun x => x.TidbCluster.Spec.Pump) hf
  have hstorage : kind ≠ corev1.ResourceName.storage := by
    rcases hk with rfl | rfl <;> decide
  have hreq : r.TidbCluster.Spec.PD.Requests.get kind = env.Medium.Requests.get kind := by
    rw [hpd, pPD]
    exact ResourceList_get_set_of_ne _ _ _ _ hstorage
  have hlim : r.TidbCluster.Spec.PD.Limits.get kind = env.Medium.Limits.get kind := by
    rw [hpd, pPD]
  refine ⟨⟨?_, hreq, hlim⟩, ⟨?_, ?_⟩, ⟨?_, ?_⟩, ?_, hpump.trans pPump⟩
  · intro a b ha hb
    exact hM a b (hreq ▸ ha) (hlim ▸ hb)
  · rw [htikv, pTiKV]
    rcases hk with rfl | rfl
    · exact withinLimit_of_entries _ _ ⟨500⟩ ⟨1000⟩ rfl rfl (by decide)
    · exact withinLimit_of_entries _ _ ⟨4294967296000⟩ ⟨17179869184000⟩ rfl rfl (by decide)
  · rw [htikv, pTiKV]
    exact ⟨rfl, rfl, rfl, rfl⟩
  · rw [htidb, pTiDB]
    rcases hk with rfl | rfl
    · exact withinLimit_of_entries _ _ ⟨1000⟩ ⟨1000⟩ rfl rfl (by decide)
    · exact withinLimit_of_entries _ _ ⟨1073741824000⟩ ⟨17179869184000⟩ rfl rfl (by decide)
  · rw [htidb, pTiDB]
    exact ⟨rfl, rfl, rfl, rfl⟩
  · intro t ht
    obtain ⟨t1, ht1, hres, -, -, hclaims, -⟩ := tiflash_frame r r1 hf t ht
    obtain ⟨qres, -, qclaims⟩ := pTiFlash t1 ht1
    rw [hres, qres, hclaims, qclaims]
    refine ⟨?_, rfl, ?_⟩
    · intro a b ha
      cases ha
    · intro c hc
      rw [List.mem_singleton] at hc
      subst hc
      refine ⟨?_, rfl, rfl, rfl, rfl⟩
      rcases hk with rfl | rfl
      · exact withinLimit_of_entries _ _ ⟨1000⟩ ⟨4000⟩ rfl rfl (by decide)
      · exact withinLimit_of_entries _ _ ⟨2147483648000⟩ ⟨17179869184000⟩ rfl rfl (by decide)

/-- Witness of C8: a build with one TiFlash replica, the scenario "delay_tikv"
and a medium profile of 1000m requested and 2000m allowed cpu. -/
theorem requests_within_limits_witness :
    ∃ r, RecommendedTiDBCluster
        { Context := { Nemesis := "delay_tikv" },
          Medium := { Requests := [(.cpu, ⟨1000⟩)], Limits := [(.cpu, ⟨2000⟩)] } }
        "ns1" "c1" { TiFlashReplicas := 1 } = .ok r ∧
      withinLimit r.TidbCluster.Spec.PD.toResourceRequirements .cpu ∧
      r.TidbCluster.Spec.PD.Requests.get .cpu = some ⟨1000⟩ ∧
      withinLimit r.TidbCluster.Spec.TiKV.toResourceRequirements .cpu ∧
      withinLimit r.TidbCluster.Spec.TiDB.toResourceRequirements .cpu :=
  have hw := requests_within_limits
    { Context := { Nemesis := "delay_tikv" },
      Medium := { Requests := [(.cpu, ⟨1000⟩)], Limits := [(.cpu, ⟨2000⟩)] } }
    "ns1" "c1" { TiFlashReplicas := 1 } _ .cpu (Or.inl rfl)
    (withinLimit_of_entries _ _ ⟨1000⟩ ⟨2000⟩ rfl rfl (by decide)) rfl
  ⟨_, rfl, hw.1.1, hw.1.2.1.trans rfl, hw.2.1.1, hw.2.2.1.1⟩

/-- C9, on the code: whenever the build returns, the auto-failover toggle is
disabled (`MaxFailoverCount` present and 0) on TiKV, on TiDB and on TiFlash when
that role is present, but PD has no `MaxFailoverCount` at all. -/
theorem maxFailoverCount_of_roles (env : Env) (ns name : String)
    (cfg : fixture.TiDBClusterConfig) (r : Recommendation)
    (h : RecommendedTiDBCluster env ns name cfg = .ok r) :
    r.TidbCluster.Spec.PD.MaxFailoverCount = none ∧
      r.TidbCluster.Spec.TiKV.MaxFailoverCount = some 0 ∧
      r.TidbCluster.Spec.TiDB.MaxFailoverCount = some 0 ∧
      (∀ t, r.TidbCluster.Spec.TiFlash = some t → t.MaxFailoverCount = some 0) := by
  obtain ⟨r0, r1, h0, h1, hl⟩ := build_decompose env ns name cfg r h
  have hf := (roleLoop_frame env _ r1 r hl).1
  obtain ⟨-, -, -, pPD, pTiKV, pTiDB, -, pTiFlash⟩ := preLoop_roles env ns name cfg r0 r1 h0 h1
  have hpd : r.TidbCluster.Spec.PD.MaxFailoverCount = r1.TidbCluster.Spec.PD.MaxFailoverCount :=
    congrArg (fun x => x.TidbCluster.Spec.PD.MaxFailoverCount) hf
  have htikv : r.TidbCluster.Spec.TiKV.MaxFailoverCount =
      r1.TidbCluster.Spec.TiKV.MaxFailoverCount :=
    congrArg (fun x => x.TidbCluster.Spec.TiKV.MaxFailoverCount) hf
  have htidb : r.TidbCluster.Spec.TiDB.MaxFailoverCount =
      r1.TidbCluster.Spec.TiDB.MaxFailoverCount :=
    congrArg (fun x => x.TidbCluster.Spec.TiDB.MaxFailoverCount) hf
  refine ⟨hpd.trans pPD, htikv.trans pTiKV, htidb.trans pTiDB, fun t ht => ?_⟩
  obtain ⟨t1, ht1, -, -, hmax, -, -⟩ := tiflash_frame r r1 hf t ht
  rw [hmax]
  exact (pTiFlash t1 ht1).2.1

/-- Witness of C9: the build of the default configuration with one TiFlash
replica. -/
theorem maxFailoverCount_of_roles_witness :
    ∃ r, RecommendedTiDBCluster {} "ns1" "c1" { TiFlashReplicas := 1 } = .ok r ∧
      r.TidbCluster.Spec.PD.MaxFailoverCount = none ∧
      r.TidbCluster.Spec.TiKV.MaxFailoverCount = some 0 :=
  have hw := maxFailoverCount_of_roles {} "ns1" "c1" { TiFlashReplicas := 1 } _ rfl
  ⟨_, rfl, hw.1, hw.2.1⟩

/-- C10: with `TiFlashReplicas ≤ 0` and a scenario string without a recognised
name the build returns; the output has the three roles PD, TiKV and TiDB and
neither TiFlash nor Pump, the monitor references exactly the cluster
`(ns, name)`, the list of documents is empty and no role carries annotations. -/
theorem build_without_tiflash_and_scenarios (env : Env) (ns name : String)
    (cfg : fixture.TiDBClusterConfig) (hle : cfg.TiFlashReplicas ≤ 0)
    (hno : ∀ seg ∈ Split env.Context.Nemesis ',', scenarioRole (TrimSpace seg) = none) :
    ∃ r, RecommendedTiDBCluster env ns name cfg = .ok r ∧
      r.TidbCluster.Spec.TiFlash = none ∧ r.TidbCluster.Spec.Pump = none ∧
      r.TidbMonitor.Spec.Clusters = [{ Namespace := ns, Name := name }] ∧
      r.InjectionConfigMaps = [] ∧
      r.TidbCluster.Spec.PD.Annotations = [] ∧ r.TidbCluster.Spec.TiKV.Annotations = [] ∧
      r.TidbCluster.Spec.TiDB.Annotations = [] := by
  have hroles : (Split env.Context.Nemesis ',').filterMap
      (fun seg => scenarioRole (TrimSpace seg)) = [] := by
    rw [List.filterMap_eq_nil_iff]
    exact hno
  obtain ⟨r0, h0⟩ : ∃ r0, initialRecommendation env ns name cfg = .ok r0 := ⟨_, rfl⟩
  refine ⟨r0, ?_, ?_⟩
  · unfold RecommendedTiDBCluster
    rw [h0]
    simp only [bind, Except.bind, enableTiFlashStep, if_neg (not_lt.2 hle), pure, Except.pure]
    rw [nemesisLoop_eq_roleLoop, hroles]
    rfl
  · have e0 : initialRecommendation env ns name cfg = .ok _ := rfl
    cases e0.symm.trans h0
    exact ⟨rfl, rfl, rfl, rfl, rfl, rfl, rfl⟩

/-- Witness of C10: namespace "ns1", name "c1", no TiFlash replica and the empty
scenario string. -/
theorem build_without_tiflash_and_scenarios_witness :
    ∃ r, RecommendedTiDBCluster {} "ns1" "c1" {} = .ok r ∧
      r.TidbCluster.Spec.TiFlash = none ∧ r.TidbCluster.Spec.Pump = none ∧
      r.TidbMonitor.Spec.Clusters = [{ Namespace := "ns1", Name := "c1" }] ∧
      r.InjectionConfigMaps = [] ∧
      r.TidbCluster.Spec.PD.Annotations = [] ∧ r.TidbCluster.Spec.TiKV.Annotations = [] ∧
      r.TidbCluster.Spec.TiDB.Annotations = [] :=
  build_without_tiflash_and_scenarios {} "ns1" "c1" {} (by decide) (by decide)

/-! ## Auxiliary lemmas for the incremental operations -/

theorem build_eq_roleLoop (env : Env) (ns name : String) (cfg : fixture.TiDBClusterConfig) :
    RecommendedTiDBCluster env ns name cfg =
      (initialRecommendation env ns name cfg >>= enableTiFlashStep env cfg) >>=
        fun r1 => roleLoop env r1 (recognisedRoles env.Context.Nemesis) := by
  unfold RecommendedTiDBCluster
  simp only [recognisedRoles_eq, nemesisLoop_eq_roleLoop, bind_assoc]

theorem build_of_no_roles (env : Env) (ns name : String) (cfg : fixture.TiDBClusterConfig)
    (hno : ∀ seg ∈ Split env.Context.Nemesis ',', scenarioRole (TrimSpace seg) = none) :
    RecommendedTiDBCluster env ns name cfg =
      initialRecommendation env ns name cfg >>= enableTiFlashStep env cfg := by
  have hroles : recognisedRoles env.Context.Nemesis = [] := by
    rw [recognisedRoles_eq, List.filterMap_eq_nil_iff]
    exact hno
  rw [build_eq_roleLoop, hroles]
  cases initialRecommendation env ns name cfg >>= enableTiFlashStep env cfg with
  | error e => rfl
  | ok r => rfl

/-- C12: when the TiFlash role is present, `EnableTiFlash` returns the
Recommendation unchanged, whatever image and replica count it is given; and on
every Recommendation a second call changes nothing after a first one. -/
theorem enableTiFlash_noop_when_present (env : Env) (t : Recommendation)
    (image image2 : String) (replicas replicas2 : Int) :
    (t.TidbCluster.Spec.TiFlash.isSome = true → t.EnableTiFlash env image replicas = .ok t) ∧
    (t.EnableTiFlash env image replicas >>= fun t1 => t1.EnableTiFlash env image2 replicas2) =
      t.EnableTiFlash env image replicas := by
  have hpresent : ∀ (u : Recommendation) (i : String) (n : Int),
      u.TidbCluster.Spec.TiFlash.isSome = true → u.EnableTiFlash env i n = .ok u := by
    intro u i n hu
    unfold Recommendation.EnableTiFlash
    rw [if_neg (by intro hnone; rw [hnone] at hu; cases hu)]
    rfl
  refine ⟨hpresent t image replicas, ?_⟩
  cases hT : t.TidbCluster.Spec.TiFlash with
  | some tf =>
    rw [hpresent t image replicas (by rw [hT]; rfl)]
    exact hpresent t image2 replicas2 (by rw [hT]; rfl)
  | none =>
    obtain ⟨t1, h1, hs⟩ : ∃ t1, t.EnableTiFlash env image replicas = .ok t1 ∧
        t1.TidbCluster.Spec.TiFlash.isSome = true := by
      unfold Recommendation.EnableTiFlash
      rw [if_pos hT]
      exact ⟨_, rfl, rfl⟩
    rw [h1]
    exact hpresent t1 image2 replicas2 hs

/-- Witness of C12: a Recommendation built with one TiFlash replica keeps its
TiFlash role when `EnableTiFlash` is called with another image and count. -/
theorem enableTiFlash_noop_when_present_witness :
    ∃ r, RecommendedTiDBCluster {} "ns1" "c1" { TiFlashReplicas := 1 } = .ok r ∧
      r.EnableTiFlash {} "other/tiflash:dev" 7 = .ok r :=
  ⟨_, rfl,
    (enableTiFlash_noop_when_present {} _ "other/tiflash:dev" "" 7 0).1 rfl⟩

theorem int32_of_inRange (x : Int) (hlo : -2 ^ 31 ≤ x) (hhi : x < 2 ^ 31) : int32 x = x := by
  unfold int32
  omega

theorem buildImage_of_ne_empty (ctx : fixture.Context) (name baseVersion image : String)
    (h : image ≠ "") : buildImage ctx name baseVersion image = image := by
  unfold buildImage
  rw [if_pos (len_pos_of_ne_empty image h)]

/-- C11, on the code: the standalone `EnableTiFlash` is not the whole of build
step 7. On the Recommendation built from the zero configuration, calling
`EnableTiFlash "pingcap/tiflash:dev" 1` leaves `Spec.PD.Config` absent, while
the build with that image and one replica sets the placement-rules flag, so the
two cluster specifications differ. -/
theorem enableTiFlash_standalone_differs_from_build :
    ∃ r0 rT rB, RecommendedTiDBCluster {} "ns1" "c1" {} = .ok r0 ∧
      r0.EnableTiFlash {} "pingcap/tiflash:dev" 1 = .ok rT ∧
      RecommendedTiDBCluster {} "ns1" "c1"
        { TiFlashImage := "pingcap/tiflash:dev", TiFlashReplicas := 1 } = .ok rB ∧
      placementRules rT = none ∧ placementRules rB = some true ∧
      rT.TidbCluster ≠ rB.TidbCluster :=
  ⟨_, _, _, rfl, rfl, rfl, rfl, rfl, by decide⟩

/-- C11, amended: on a Recommendation built with `TiFlashReplicas = 0` and a
scenario string without recognised names, `EnableTiFlash image r` with a
non-empty image and `0 < r < 2^31` returns, and the build from the same inputs
with `TiFlashImage = image` and `TiFlashReplicas = r` is its result with
`Spec.PD.Config` set to the placement-rules configuration: the two agree on
everything else, in particular on the TiFlash role (image `image`, `r`
replicas), and the standalone call leaves `Spec.PD.Config` absent. -/
theorem enableTiFlash_standalone_vs_build (env : Env) (ns name : String)
    (cfg : fixture.TiDBClusterConfig) (image : String) (n : Int) (r0 : Recommendation)
    (h0 : cfg.TiFlashReplicas = 0)
    (hno : ∀ seg ∈ Split env.Context.Nemesis ',', scenarioRole (TrimSpace seg) = none)
    (himg : image ≠ "") (hpos : 0 < n) (hlt : n < 2 ^ 31)
    (hb : RecommendedTiDBCluster env ns name cfg = .ok r0) :
    ∃ rT rB, r0.EnableTiFlash env image n = .ok rT ∧
      RecommendedTiDBCluster env ns name
        { cfg with TiFlashImage := image, TiFlashReplicas := n } = .ok rB ∧
      rB = { rT with TidbCluster.Spec.PD.Config := some placementConfig } ∧
      rT.TidbCluster.Spec.PD.Config = none ∧
      placementRules rT = none ∧ placementRules rB = some true ∧
      ∃ t, rT.TidbCluster.Spec.TiFlash = some t ∧ rB.TidbCluster.Spec.TiFlash = some t ∧
        t.Image = image ∧ t.Replicas = n := by
  have e0 : initialRecommendation env ns name cfg = .ok _ := rfl
  rw [build_of_no_roles env ns name cfg hno, e0] at hb
  simp only [bind, Except.bind, enableTiFlashStep, h0, gt_iff_lt, lt_self_iff_false,
    if_false, pure, Except.pure] at hb
  cases hb
  have e1 : initialRecommendation env ns name
      { cfg with TiFlashImage := image, TiFlashReplicas := n } = .ok _ := rfl
  refine ⟨_, _, rfl, ?_, rfl, rfl, rfl, rfl, _, rfl, rfl, ?_, ?_⟩
  · rw [build_of_no_roles env ns name _ hno, e1]
    simp only [bind, Except.bind, enableTiFlashStep, gt_iff_lt, hpos, if_true]
    rfl
  · exact buildImage_of_ne_empty _ _ _ _ himg
  · exact int32_of_inRange n (by omega) hlt

/-- Witness of the amended C11: the zero configuration, the image
"pingcap/tiflash:dev" and one replica. -/
theorem enableTiFlash_standalone_vs_build_witness :
    ∃ r0 rT rB, RecommendedTiDBCluster {} "ns1" "c1" {} = .ok r0 ∧
      r0.EnableTiFlash {} "pingcap/tiflash:dev" 1 = .ok rT ∧
      RecommendedTiDBCluster {} "ns1" "c1"
        { TiFlashImage := "pingcap/tiflash:dev", TiFlashReplicas := 1 } = .ok rB ∧
      rB = { rT with TidbCluster.Spec.PD.Config := some placementConfig } :=
  by
    obtain ⟨rT, rB, h1, h2, h3, -⟩ :=
      enableTiFlash_standalone_vs_build {} "ns1" "c1" {} "pingcap/tiflash:dev" 1 _ rfl
        (by decide) (by decide) (by decide) (by decide) rfl
    exact ⟨_, rT, rB, rfl, h1, h2, h3⟩

/-! ## Auxiliary lemmas for tolerated scenario strings -/

theorem dropWhile_spaces_append (p : Char → Bool) (ws l : List Char)
    (h : ∀ c ∈ ws, p c = true) : (ws ++ l).dropWhile p = l.dropWhile p := by
  induction ws with
  | nil => rfl
  | cons c rest ih =>
    rw [List.cons_append, List.dropWhile_cons, h c (List.mem_cons_self c rest)]
    exact ih (fun d hd => h d (List.mem_cons_of_mem c hd))

theorem rdropWhile_append_spaces (p : Char → Bool) (l ws : List Char)
    (h : ∀ c ∈ ws, p c = true) : (l ++ ws).rdropWhile p = l.rdropWhile p := by
  unfold List.rdropWhile
  rw [List.reverse_append, dropWhile_spaces_append p ws.reverse l.reverse
    (fun c hc => h c (List.mem_reverse.1 hc))]

theorem trim_append_spaces (p : Char → Bool) (l ws : List Char)
    (h : ∀ c ∈ ws, p c = true) :
    ((l ++ ws).dropWhile p).rdropWhile p = (l.dropWhile p).rdropWhile p := by
  induction l with
  | nil =>
    have hnil : ws.dropWhile p = [] := by
      rw [List.dropWhile_eq_nil_iff]
      exact h
    rw [List.nil_append, hnil]
    rfl
  | cons c rest ih =>
    rw [List.cons_append]
    by_cases hc : p c = true
    · rw [List.dropWhile_cons, List.dropWhile_cons, hc]
      exact ih
    · rw [List.dropWhile_cons, List.dropWhile_cons]
      simp only [hc, Bool.false_eq_true, if_false]
      exact rdropWhile_append_spaces p (c :: rest) ws h

theorem TrimSpace_pad (before after : List Char) (seg : String)
    (hb : ∀ c ∈ before, isSpace c = true) (ha : ∀ c ∈ after, isSpace c = true) :
    TrimSpace ⟨before ++ seg.data ++ after⟩ = TrimSpace seg := by
  unfold TrimSpace
  simp only [List.append_assoc]
  rw [dropWhile_spaces_append isSpace before _ hb, trim_append_spaces isSpace seg.data after ha]

theorem filterMap_of_tolerated (segs segs1 : List String) (h : Tolerated segs segs1) :
    segs1.filterMap (fun seg => scenarioRole (TrimSpace seg)) =
      segs.filterMap (fun seg => scenarioRole (TrimSpace seg)) := by
  induction h with
  | done => rfl
  | pad before after seg segs segs1 hb ha _ ih =>
    rw [List.filterMap_cons, List.filterMap_cons, TrimSpace_pad before after seg hb ha, ih]
  | extra seg segs segs1 hseg _ ih =>
    rw [List.filterMap_cons, hseg]
    exact ih

theorem roleLoop_withNemesis (env : Env) (s : String) (roles : List ChaosRole)
    (r : Recommendation) : roleLoop (env.withNemesis s) r roles = roleLoop env r roles := by
  induction roles generalizing r with
  | nil => rfl
  | cons role rest ih =>
    have hstep : applyRole (env.withNemesis s) r role = applyRole env r role := by
      cases role <;> rfl
    rw [roleLoop, roleLoop, hstep]
    cases applyRole env r role with
    | error e => rfl
    | ok r1 => exact ih r1

theorem build_withNemesis (env : Env) (s ns name : String) (cfg : fixture.TiDBClusterConfig) :
    RecommendedTiDBCluster (env.withNemesis s) ns name cfg =
      (initialRecommendation env ns name cfg >>= enableTiFlashStep env cfg) >>=
        fun r1 => roleLoop env r1 (recognisedRoles s) := by
  rw [build_eq_roleLoop]
  have hpre : (initialRecommendation (env.withNemesis s) ns name cfg >>=
      enableTiFlashStep (env.withNemesis s) cfg) =
        (initialRecommendation env ns name cfg >>= enableTiFlashStep env cfg) := rfl
  rw [hpre]
  congr 1
  funext r1
  exact roleLoop_withNemesis env s _ r1

/-- C13: unrecognised and malformed scenario input does not change the result.
If the build with the scenario string `s` returns `r`, and the segments of `s1`
are those of `s` with white space added around existing segments and with
inserted segments whose trimmed text is not in the scenario table (empty,
white space only or unknown), then the build with `s1` returns the same `r`. -/
theorem tolerated_scenario_same_build (env : Env) (ns name : String)
    (cfg : fixture.TiDBClusterConfig) (s s1 : String) (r : Recommendation)
    (ht : Tolerated (Split s ',') (Split s1 ','))
    (h : RecommendedTiDBCluster (env.withNemesis s) ns name cfg = .ok r) :
    RecommendedTiDBCluster (env.withNemesis s1) ns name cfg = .ok r := by
  rw [build_withNemesis] at h ⊢
  have hroles : recognisedRoles s1 = recognisedRoles s := by
    rw [recognisedRoles_eq, recognisedRoles_eq]
    exact filterMap_of_tolerated _ _ ht
  rw [hroles]
  exact h

/-- Witness of C13: "delay_tikv,errno_pd" against the same names with blanks, a
stray comma, an unknown name and a blank last segment. -/
theorem tolerated_scenario_same_build_witness :
    ∃ r, RecommendedTiDBCluster (Env.withNemesis {} "delay_tikv,errno_pd") "ns1" "c1" {} = .ok r ∧
      RecommendedTiDBCluster (Env.withNemesis {} " delay_tikv ,, unknown_x,errno_pd\t, ")
        "ns1" "c1" {} = .ok r :=
  ⟨_, rfl,
    tolerated_scenario_same_build {} "ns1" "c1" {} "delay_tikv,errno_pd"
      " delay_tikv ,, unknown_x,errno_pd\t, " _
      (Tolerated.pad [' '] [' '] "delay_tikv" _ _ (by decide) (by decide)
        (Tolerated.extra "" _ _ (by decide)
          (Tolerated.extra " unknown_x" _ _ (by decide)
            (Tolerated.pad [] ['\t'] "errno_pd" _ _ (by decide) (by decide)
              (Tolerated.extra " " _ _ (by decide) Tolerated.done)))))
      rfl⟩

/-! ## Auxiliary lemmas for annotations, replica counts and images -/

theorem scenarioRole_eq_some_iff (n : String) :
    (scenarioRole n = some .tikv ↔
      n ∈ ["delay_tikv", "errno_tikv", "mixed_tikv", "readerr_tikv"]) ∧
    (scenarioRole n = some .pd ↔ n ∈ ["delay_pd", "errno_pd", "mixed_pd"]) ∧
    (scenarioRole n = some .tiflash ↔
      n ∈ ["delay_tiflash", "errno_tiflash", "mixed_tiflash", "readerr_tiflash"]) := by
  rw [scenarioRole_eq]
  by_cases ha : n ∈ ["delay_tikv", "errno_tikv", "mixed_tikv", "readerr_tikv"]
  · have hb : n ∉ ["delay_pd", "errno_pd", "mixed_pd"] := by
      simp only [List.mem_cons, List.mem_singleton, List.not_mem_nil, or_false] at ha
      rcases ha with rfl | rfl | rfl | rfl <;> decide
    have hc : n ∉ ["delay_tiflash", "errno_tiflash", "mixed_tiflash", "readerr_tiflash"] := by
      simp only [List.mem_cons, List.mem_singleton, List.not_mem_nil, or_false] at ha
      rcases ha with rfl | rfl | rfl | rfl <;> decide
    rw [if_pos ha]
    simp only [ha, hb, hc, Option.some.injEq, reduceCtorEq, and_self]
  · rw [if_neg ha]
    by_cases hb : n ∈ ["delay_pd", "errno_pd", "mixed_pd"]
    · have hc : n ∉ ["delay_tiflash", "errno_tiflash", "mixed_tiflash", "readerr_tiflash"] := by
        simp only [List.mem_cons, List.mem_singleton, List.not_mem_nil, or_false] at hb
        rcases hb with rfl | rfl | rfl <;> decide
      rw [if_pos hb]
      simp only [ha, hb, hc, Option.some.injEq, reduceCtorEq, and_self]
    · rw [if_neg hb]
      by_cases hc : n ∈ ["delay_tiflash", "errno_tiflash", "mixed_tiflash", "readerr_tiflash"]
      · rw [if_pos hc]
        simp only [ha, hb, hc, Option.some.injEq, reduceCtorEq, and_self]
      · rw [if_neg hc]
        simp only [ha, hb, hc, reduceCtorEq, and_self]

theorem mem_recognisedRoles (s : String) (role : ChaosRole) :
    role ∈ recognisedRoles s ↔
      ∃ seg ∈ Split s ',', scenarioRole (TrimSpace seg) = some role := by
  rw [recognisedRoles_eq, List.mem_filterMap]

theorem mem_recognisedRoles_iff_scenarioIn (s : String) :
    (ChaosRole.tikv ∈ recognisedRoles s ↔
      scenarioIn s ["delay_tikv", "errno_tikv", "mixed_tikv", "readerr_tikv"]) ∧
    (ChaosRole.pd ∈ recognisedRoles s ↔ scenarioIn s ["delay_pd", "errno_pd", "mixed_pd"]) ∧
    (ChaosRole.tiflash ∈ recognisedRoles s ↔
      scenarioIn s ["delay_tiflash", "errno_tiflash", "mixed_tiflash", "readerr_tiflash"]) := by
  simp only [mem_recognisedRoles, scenarioIn]
  refine ⟨?_, ?_, ?_⟩
  · exact exists_congr fun seg => and_congr_right fun _ => (scenarioRole_eq_some_iff _).1
  · exact exists_congr fun seg => and_congr_right fun _ => (scenarioRole_eq_some_iff _).2.1
  · exact exists_congr fun seg => and_congr_right fun _ => (scenarioRole_eq_some_iff _).2.2

theorem applyRole_annotations (env : Env) (r r1 : Recommendation) (role : ChaosRole)
    (h : applyRole env r role = .ok r1) :
    r1.TidbCluster.Spec.PD.Annotations =
        (if role = .pd then [("admission-webhook.pingcap.com/request", "chaosfs-pd")]
          else r.TidbCluster.Spec.PD.Annotations) ∧
      r1.TidbCluster.Spec.TiKV.Annotations =
        (if role = .tikv then [("admission-webhook.pingcap.com/request", "chaosfs-tikv")]
          else r.TidbCluster.Spec.TiKV.Annotations) ∧
      tiflashAnnotations r1 =
        (if role = .tiflash then [("admission-webhook.pingcap.com/request", "chaosfs-tiflash")]
          else tiflashAnnotations r) := by
  obtain ⟨svc, ⟨meta, ⟨pd, tidb, tikv, tf, pump, tz, pol, en, pull⟩⟩, mon, cms⟩ := r
  cases role with
  | tikv => cases h; exact ⟨rfl, rfl, rfl⟩
  | pd => cases h; exact ⟨rfl, rfl, rfl⟩
  | tiflash =>
    cases tf with
    | none => cases h
    | some t => cases h; exact ⟨rfl, rfl, rfl⟩

theorem roleLoop_annotations (env : Env) (roles : List ChaosRole) (r r1 : Recommendation)
    (h : roleLoop env r roles = .ok r1) :
    r1.TidbCluster.Spec.PD.Annotations =
        (if ChaosRole.pd ∈ roles then [("admission-webhook.pingcap.com/request", "chaosfs-pd")]
          else r.TidbCluster.Spec.PD.Annotations) ∧
      r1.TidbCluster.Spec.TiKV.Annotations =
        (if ChaosRole.tikv ∈ roles then
            [("admission-webhook.pingcap.com/request", "chaosfs-tikv")]
          else r.TidbCluster.Spec.TiKV.Annotations) ∧
      tiflashAnnotations r1 =
        (if ChaosRole.tiflash ∈ roles then
            [("admission-webhook.pingcap.com/request", "chaosfs-tiflash")]
          else tiflashAnnotations r) := by
  induction roles generalizing r with
  | nil =>
    cases h
    simp
  | cons role rest ih =>
    rw [roleLoop] at h
    cases hr : applyRole env r role with
    | error e => rw [hr] at h; cases h
    | ok r2 =>
      rw [hr] at h
      obtain ⟨a1, a2, a3⟩ := applyRole_annotations env r r2 role hr
      obtain ⟨b1, b2, b3⟩ := ih r2 h
      rw [b1, b2, b3, a1, a2, a3]
      refine ⟨?_, ?_, ?_⟩
      · by_cases hm : ChaosRole.pd ∈ rest
        · simp [hm]
        · by_cases he : role = ChaosRole.pd
          · simp [he]
          · simp [hm, he, Ne.symm he]
      · by_cases hm : ChaosRole.tikv ∈ rest
        · simp [hm]
        · by_cases he : role = ChaosRole.tikv
          · simp [he]
          · simp [hm, he, Ne.symm he]
      · by_cases hm : ChaosRole.tiflash ∈ rest
        · simp [hm]
        · by_cases he : role = ChaosRole.tiflash
          · simp [he]
          · simp [hm, he, Ne.symm he]

theorem preLoop_identity (env : Env) (ns name : String) (cfg : fixture.TiDBClusterConfig)
    (r0 r1 : Recommendation) (h0 : initialRecommendation env ns name cfg = .ok r0)
    (h1 : enableTiFlashStep env cfg r0 = .ok r1) :
    (r1.TidbCluster.Spec.PD.Replicas = 3 ∧ r1.TidbCluster.Spec.TiDB.Replicas = 2 ∧
      r1.TidbCluster.Spec.TiKV.Replicas = int32 cfg.TiKVReplicas) ∧
    (r1.TidbCluster.Spec.PD.Image =
        buildImage env.Context "pd" cfg.ImageVersion cfg.PDImage ∧
      r1.TidbCluster.Spec.TiKV.Image =
        buildImage env.Context "tikv" cfg.ImageVersion cfg.TiKVImage ∧
      r1.TidbCluster.Spec.TiDB.Image =
        buildImage env.Context "tidb" cfg.ImageVersion cfg.TiDBImage) ∧
    (r1.TidbCluster.Spec.PD.Annotations = [] ∧ r1.TidbCluster.Spec.TiKV.Annotations = [] ∧
      r1.TidbCluster.Spec.TiDB.Annotations = [] ∧ tiflashAnnotations r1 = []) ∧
    r1.Namespace = ns ∧
    (∀ t, r1.TidbCluster.Spec.TiFlash = some t →
      t.Image = buildImage env.Context "tiflash" "" cfg.TiFlashImage ∧
      t.Replicas = int32 cfg.TiFlashReplicas) := by
  have e0 : initialRecommendation env ns name cfg = .ok _ := rfl
  cases e0.symm.trans h0
  unfold enableTiFlashStep at h1
  by_cases hpos : cfg.TiFlashReplicas > 0
  · rw [if_pos hpos] at h1
    cases h1
    refine ⟨⟨rfl, rfl, rfl⟩, ⟨rfl, rfl, rfl⟩, ⟨rfl, rfl, rfl, rfl⟩, rfl, fun t ht => ?_⟩
    cases ht
    exact ⟨rfl, rfl⟩
  · rw [if_neg hpos] at h1
    cases h1
    refine ⟨⟨rfl, rfl, rfl⟩, ⟨rfl, rfl, rfl⟩, ⟨rfl, rfl, rfl, rfl⟩, rfl, fun t ht => ?_⟩
    cases ht

theorem build_identity (env : Env) (ns name : String) (cfg : fixture.TiDBClusterConfig)
    (r : Recommendation) (h : RecommendedTiDBCluster env ns name cfg = .ok r) :
    (r.TidbCluster.Spec.PD.Replicas = 3 ∧ r.TidbCluster.Spec.TiDB.Replicas = 2 ∧
      r.TidbCluster.Spec.TiKV.Replicas = int32 cfg.TiKVReplicas) ∧
    (r.TidbCluster.Spec.PD.Image =
        buildImage env.Context "pd" cfg.ImageVersion cfg.PDImage ∧
      r.TidbCluster.Spec.TiKV.Image =
        buildImage env.Context "tikv" cfg.ImageVersion cfg.TiKVImage ∧
      r.TidbCluster.Spec.TiDB.Image =
        buildImage env.Context "tidb" cfg.ImageVersion cfg.TiDBImage) ∧
    r.TidbCluster.Spec.TiDB.Annotations = [] ∧
    r.Namespace = ns ∧
    (∀ t, r.TidbCluster.Spec.TiFlash = some t →
      t.Image = buildImage env.Context "tiflash" "" cfg.TiFlashImage ∧
      t.Replicas = int32 cfg.TiFlashReplicas) := by
  obtain ⟨r0, r1, h0, h1, hl⟩ := build_decompose env ns name cfg r h
  have hf := (roleLoop_frame env _ r1 r hl).1
  obtain ⟨⟨p1, p2, p3⟩, ⟨i1, i2, i3⟩, ⟨-, -, a3, -⟩, hns, hT⟩ :=
    preLoop_identity env ns name cfg r0 r1 h0 h1
  have f1 : r.TidbCluster.Spec.PD.Replicas = r1.TidbCluster.Spec.PD.Replicas :=
    congrArg (fun x => x.TidbCluster.Spec.PD.Replicas) hf
  have f2 : r.TidbCluster.Spec.TiDB = r1.TidbCluster.Spec.TiDB :=
    congrArg (fun x => x.TidbCluster.Spec.TiDB) hf
  have f3 : r.TidbCluster.Spec.TiKV.Replicas = r1.TidbCluster.Spec.TiKV.Replicas :=
    congrArg (fun x => x.TidbCluster.Spec.TiKV.Replicas) hf
  have f4 : r.TidbCluster.Spec.PD.Image = r1.TidbCluster.Spec.PD.Image :=
    congrArg (fun x => x.TidbCluster.Spec.PD.Image) hf
  have f5 : r.TidbCluster.Spec.TiKV.Image = r1.TidbCluster.Spec.TiKV.Image :=
    congrArg (fun x => x.TidbCluster.Spec.TiKV.Image) hf
  refine ⟨⟨f1.trans p1, by rw [f2]; exact p2, f3.trans p3⟩,
    ⟨f4.trans i1, f5.trans i2, by rw [f2]; exact i3⟩, by rw [f2]; exact a3,
    (withoutChaos_namespace r1 r hf).trans hns, fun t ht => ?_⟩
  obtain ⟨t1, ht1, -, hrep, -, -, himg⟩ := tiflash_frame r r1 hf t ht
  rw [himg, hrep]
  exact hT t1 ht1

/-! ## Claims on the incremental operations and the scenario fan-out -/

/-- C14: whenever the build returns, each of PD, TiKV and TiFlash carries
annotations iff a trimmed segment of the scenario string is one of the names of
its group, and then its annotation map is the single entry
"admission-webhook.pingcap.com/request" -> "chaosfs-" ++ role, however many
names of the group occur; the test of a role reads the names of its own group
only, and TiDB never carries annotations. -/
theorem annotations_iff_scenario_of_role (env : Env) (ns name : String)
    (cfg : fixture.TiDBClusterConfig) (r : Recommendation)
    (h : RecommendedTiDBCluster env ns name cfg = .ok r) :
    ((r.TidbCluster.Spec.PD.Annotations ≠ [] ↔
        scenarioIn env.Context.Nemesis ["delay_pd", "errno_pd", "mixed_pd"]) ∧
      (r.TidbCluster.Spec.PD.Annotations ≠ [] →
        r.TidbCluster.Spec.PD.Annotations =
          [("admission-webhook.pingcap.com/request", "chaosfs-pd")])) ∧
    ((r.TidbCluster.Spec.TiKV.Annotations ≠ [] ↔
        scenarioIn env.Context.Nemesis
          ["delay_tikv", "errno_tikv", "mixed_tikv", "readerr_tikv"]) ∧
      (r.TidbCluster.Spec.TiKV.Annotations ≠ [] →
        r.TidbCluster.Spec.TiKV.Annotations =
          [("admission-webhook.pingcap.com/request", "chaosfs-tikv")])) ∧
    ((tiflashAnnotations r ≠ [] ↔
        scenarioIn env.Context.Nemesis
          ["delay_tiflash", "errno_tiflash", "mixed_tiflash", "readerr_tiflash"]) ∧
      (tiflashAnnotations r ≠ [] →
        tiflashAnnotations r =
          [("admission-webhook.pingcap.com/request", "chaosfs-tiflash")])) ∧
    r.TidbCluster.Spec.TiDB.Annotations = [] := by
  obtain ⟨r0, r1, h0, h1, hl⟩ := build_decompose env ns name cfg r h
  obtain ⟨hpd, htikv, htiflash⟩ := roleLoop_annotations env _ r1 r hl
  obtain ⟨-, -, ⟨a1, a2, -, a4⟩, -, -⟩ := preLoop_identity env ns name cfg r0 r1 h0 h1
  obtain ⟨m1, m2, m3⟩ := mem_recognisedRoles_iff_scenarioIn env.Context.Nemesis
  rw [a1] at hpd
  rw [a2] at htikv
  rw [a4] at htiflash
  rw [hpd, htikv, htiflash, ← m1, ← m2, ← m3]
  refine ⟨?_, ?_, ?_, (build_identity env ns name cfg r h).2.2.1⟩
  · by_cases hm : ChaosRole.pd ∈ recognisedRoles env.Context.Nemesis <;> simp [hm]
  · by_cases hm : ChaosRole.tikv ∈ recognisedRoles env.Context.Nemesis <;> simp [hm]
  · by_cases hm : ChaosRole.tiflash ∈ recognisedRoles env.Context.Nemesis <;> simp [hm]

/-- Witness of C14: with "delay_tikv, errno_tikv" TiKV carries the single entry
and PD carries none. -/
theorem annotations_iff_scenario_of_role_witness :
    ∃ r, RecommendedTiDBCluster { Context := { Nemesis := "delay_tikv, errno_tikv" } } "ns1"
        "c1" {} = .ok r ∧
      r.TidbCluster.Spec.TiKV.Annotations =
        [("admission-webhook.pingcap.com/request", "chaosfs-tikv")] ∧
      r.TidbCluster.Spec.PD.Annotations = [] ∧
      (r.TidbCluster.Spec.TiKV.Annotations ≠ [] ↔
        scenarioIn "delay_tikv, errno_tikv"
          ["delay_tikv", "errno_tikv", "mixed_tikv", "readerr_tikv"]) :=
  ⟨_, rfl, rfl, rfl,
    (annotations_iff_scenario_of_role { Context := { Nemesis := "delay_tikv, errno_tikv" } }
      "ns1" "c1" {} _ rfl).2.1.1⟩

/-- C15: whenever the build returns, every document of the list is in the
namespace `ns` of the build (which is also the namespace of the embedded
Service), carries the single label "app.kubernetes.io/component" -> "webhook",
and is named "chaosfs-" ++ role with the single data entry "chaosfs" -> payload
of that role, for one of the roles tikv, pd and tiflash; this is the shape
`newIOChaosConfigMap` gives to every document. -/
theorem documents_shape (env : Env) (ns name : String)
    (cfg : fixture.TiDBClusterConfig) (r : Recommendation)
    (h : RecommendedTiDBCluster env ns name cfg = .ok r) :
    r.Namespace = ns ∧
    (∀ d ∈ r.InjectionConfigMaps,
      d.Namespace = ns ∧ d.Labels = [("app.kubernetes.io/component", "webhook")] ∧
      ((d.Name = "chaosfs-tikv" ∧ d.Data = [("chaosfs", env.ioChaosConfigTiKV)]) ∨
        (d.Name = "chaosfs-pd" ∧ d.Data = [("chaosfs", env.ioChaosConfigPD)]) ∨
        (d.Name = "chaosfs-tiflash" ∧ d.Data = [("chaosfs", env.ioChaosConfigTiFlash)]))) ∧
    (∀ namespace_ component data : String,
      newIOChaosConfigMap namespace_ component data =
        { Name := "chaosfs-" ++ component, Namespace := namespace_,
          Labels := [("app.kubernetes.io/component", "webhook")],
          Data := [("chaosfs", data)] }) := by
  refine ⟨(build_identity env ns name cfg r h).2.2.2.1, fun d hd => ?_, fun _ _ _ => rfl⟩
  rw [build_injectionConfigMaps env ns name cfg r h, List.mem_map] at hd
  obtain ⟨role, -, rfl⟩ := hd
  cases role with
  | tikv => exact ⟨rfl, rfl, Or.inl ⟨rfl, rfl⟩⟩
  | pd => exact ⟨rfl, rfl, Or.inr (Or.inl ⟨rfl, rfl⟩)⟩
  | tiflash => exact ⟨rfl, rfl, Or.inr (Or.inr ⟨rfl, rfl⟩)⟩

/-- Witness of C15: the two documents of "delay_pd,delay_tiflash" with one
TiFlash replica. -/
theorem documents_shape_witness :
    ∃ r, RecommendedTiDBCluster
        { Context := { Nemesis := "delay_pd,delay_tiflash" }, ioChaosConfigPD := "payload-pd",
          ioChaosConfigTiFlash := "payload-tiflash" }
        "ns1" "c1" { TiFlashReplicas := 1 } = .ok r ∧
      r.InjectionConfigMaps.length = 2 ∧
      ∀ d ∈ r.InjectionConfigMaps, d.Namespace = "ns1" ∧
        d.Labels = [("app.kubernetes.io/component", "webhook")] :=
  ⟨_, rfl, rfl, fun d hd =>
    have hw := (documents_shape
      { Context := { Nemesis := "delay_pd,delay_tiflash" }, ioChaosConfigPD := "payload-pd",
        ioChaosConfigTiFlash := "payload-tiflash" }
      "ns1" "c1" { TiFlashReplicas := 1 } _ rfl).2.1 d hd
    ⟨hw.1, hw.2.1⟩⟩

/-- C16: whenever the build returns, PD has exactly 3 replicas and TiDB exactly
2, whatever the configuration says, and the TiKV count is `int32 TiKVReplicas`:
it lies in the 32-bit signed range, is congruent to `TiKVReplicas` modulo
`2^32`, and equals `TiKVReplicas` whenever that is in the range, negative counts
included; nothing rejects or clamps a count. -/
theorem replica_counts (env : Env) (ns name : String)
    (cfg : fixture.TiDBClusterConfig) (r : Recommendation)
    (h : RecommendedTiDBCluster env ns name cfg = .ok r) :
    r.TidbCluster.Spec.PD.Replicas = 3 ∧ r.TidbCluster.Spec.TiDB.Replicas = 2 ∧
      r.TidbCluster.Spec.TiKV.Replicas = int32 cfg.TiKVReplicas ∧
      (-2 ^ 31 ≤ r.TidbCluster.Spec.TiKV.Replicas ∧ r.TidbCluster.Spec.TiKV.Replicas < 2 ^ 31) ∧
      (r.TidbCluster.Spec.TiKV.Replicas - cfg.TiKVReplicas) % 2 ^ 32 = 0 ∧
      (-2 ^ 31 ≤ cfg.TiKVReplicas → cfg.TiKVReplicas < 2 ^ 31 →
        r.TidbCluster.Spec.TiKV.Replicas = cfg.TiKVReplicas) := by
  obtain ⟨⟨p1, p2, p3⟩, -⟩ := build_identity env ns name cfg r h
  refine ⟨p1, p2, p3, ?_, ?_, fun hlo hhi => ?_⟩
  · rw [p3]
    unfold int32
    omega
  · rw [p3]
    unfold int32
    omega
  · rw [p3]
    exact int32_of_inRange _ hlo hhi

/-- Witness of C16: a configuration with -1 TiKV replicas is built with the
count -1, and one with 2^32 + 5 replicas with the count 5. -/
theorem replica_counts_witness :
    (∃ r, RecommendedTiDBCluster {} "ns1" "c1" { TiKVReplicas := -1 } = .ok r ∧
      r.TidbCluster.Spec.PD.Replicas = 3 ∧ r.TidbCluster.Spec.TiDB.Replicas = 2 ∧
      r.TidbCluster.Spec.TiKV.Replicas = -1) ∧
    (∃ r, RecommendedTiDBCluster {} "ns1" "c1" { TiKVReplicas := 4294967301 } = .ok r ∧
      r.TidbCluster.Spec.TiKV.Replicas = 5) :=
  ⟨⟨_, rfl,
      (replica_counts {} "ns1" "c1" { TiKVReplicas := -1 } _ rfl).1,
      (replica_counts {} "ns1" "c1" { TiKVReplicas := -1 } _ rfl).2.1,
      (replica_counts {} "ns1" "c1" { TiKVReplicas := -1 } _ rfl).2.2.2.2.2
        (by decide) (by decide)⟩,
    ⟨_, rfl,
      (replica_counts {} "ns1" "c1" { TiKVReplicas := 4294967301 } _ rfl).2.2.1.trans
        (by decide)⟩⟩


/-! ## Claims on images and on the replica setters -/

theorem buildImage_of_empty (ctx : fixture.Context) (name baseVersion : String) :
    buildImage ctx name baseVersion "" =
      (if ctx.HubAddress ≠ "" then ctx.HubAddress ++ "/" else "") ++ ctx.DockerRepository ++
        "/" ++ name ++ ":" ++ baseVersion := by
  have hlen : ¬ len "" > 0 := by decide
  unfold buildImage
  rw [if_neg hlen]
  by_cases hhub : ctx.HubAddress = ""
  · simp only [hhub, ne_eq, not_true_eq_false, if_false]
  · simp only [ne_eq, hhub, not_false_eq_true, if_true, String.empty_append]

/-- C17: whenever the build returns, the images of PD, TiKV and TiDB are the
results of `buildImage` for that role alone, from the role name, `ImageVersion`
and the override of the role. Hence a build that differs only in the override
of one role differs in no other image, a non-empty override being that role's
image; and with the three overrides empty the images are
`base/pd:ImageVersion`, `base/tikv:ImageVersion` and `base/tidb:ImageVersion`
for one common `base`. -/
theorem role_images (env : Env) (ns name : String)
    (cfg : fixture.TiDBClusterConfig) (r : Recommendation)
    (h : RecommendedTiDBCluster env ns name cfg = .ok r) :
    (r.TidbCluster.Spec.PD.Image =
        buildImage env.Context "pd" cfg.ImageVersion cfg.PDImage ∧
      r.TidbCluster.Spec.TiKV.Image =
        buildImage env.Context "tikv" cfg.ImageVersion cfg.TiKVImage ∧
      r.TidbCluster.Spec.TiDB.Image =
        buildImage env.Context "tidb" cfg.ImageVersion cfg.TiDBImage) ∧
    (∀ (x : String) (r2 : Recommendation),
      RecommendedTiDBCluster env ns name { cfg with PDImage := x } = .ok r2 →
        (x ≠ "" → r2.TidbCluster.Spec.PD.Image = x) ∧
        r2.TidbCluster.Spec.TiKV.Image = r.TidbCluster.Spec.TiKV.Image ∧
        r2.TidbCluster.Spec.TiDB.Image = r.TidbCluster.Spec.TiDB.Image) ∧
    (∀ (x : String) (r2 : Recommendation),
      RecommendedTiDBCluster env ns name { cfg with TiKVImage := x } = .ok r2 →
        (x ≠ "" → r2.TidbCluster.Spec.TiKV.Image = x) ∧
        r2.TidbCluster.Spec.PD.Image = r.TidbCluster.Spec.PD.Image ∧
        r2.TidbCluster.Spec.TiDB.Image = r.TidbCluster.Spec.TiDB.Image) ∧
    (∀ (x : String) (r2 : Recommendation),
      RecommendedTiDBCluster env ns name { cfg with TiDBImage := x } = .ok r2 →
        (x ≠ "" → r2.TidbCluster.Spec.TiDB.Image = x) ∧
        r2.TidbCluster.Spec.PD.Image = r.TidbCluster.Spec.PD.Image ∧
        r2.TidbCluster.Spec.TiKV.Image = r.TidbCluster.Spec.TiKV.Image) ∧
    (cfg.PDImage = "" → cfg.TiKVImage = "" → cfg.TiDBImage = "" →
      ∃ base : String,
        r.TidbCluster.Spec.PD.Image = base ++ "/pd:" ++ cfg.ImageVersion ∧
        r.TidbCluster.Spec.TiKV.Image = base ++ "/tikv:" ++ cfg.ImageVersion ∧
        r.TidbCluster.Spec.TiDB.Image = base ++ "/tidb:" ++ cfg.ImageVersion) := by
  obtain ⟨-, ⟨i1, i2, i3⟩, -⟩ := build_identity env ns name cfg r h
  refine ⟨⟨i1, i2, i3⟩, fun x r2 h2 => ?_, fun x r2 h2 => ?_, fun x r2 h2 => ?_,
    fun e1 e2 e3 => ?_⟩
  · obtain ⟨-, ⟨j1, j2, j3⟩, -⟩ := build_identity env ns name _ r2 h2
    exact ⟨fun hx => j1.trans (buildImage_of_ne_empty _ _ _ _ hx), j2.trans i2.symm,
      j3.trans i3.symm⟩
  · obtain ⟨-, ⟨j1, j2, j3⟩, -⟩ := build_identity env ns name _ r2 h2
    exact ⟨fun hx => j2.trans (buildImage_of_ne_empty _ _ _ _ hx), j1.trans i1.symm,
      j3.trans i3.symm⟩
  · obtain ⟨-, ⟨j1, j2, j3⟩, -⟩ := build_identity env ns name _ r2 h2
    exact ⟨fun hx => j3.trans (buildImage_of_ne_empty _ _ _ _ hx), j1.trans i1.symm,
      j2.trans i2.symm⟩
  · refine ⟨(if env.Context.HubAddress ≠ "" then env.Context.HubAddress ++ "/" else "") ++
      env.Context.DockerRepository, ?_, ?_, ?_⟩
    · rw [i1, e1, buildImage_of_empty]
      simp only [String.append_assoc]
      rfl
    · rw [i2, e2, buildImage_of_empty]
      simp only [String.append_assoc]
      rfl
    · rw [i3, e3, buildImage_of_empty]
      simp only [String.append_assoc]
      rfl

/-- Witness of C17: with an override for TiKV only, PD and TiDB keep the
composed references with the tag of the configuration. -/
theorem role_images_witness :
    ∃ r, RecommendedTiDBCluster { Context := { DockerRepository := "pingcap" } } "ns1" "c1"
        { ImageVersion := "v4.0.0", TiKVImage := "registry.local/tikv:dev" } = .ok r ∧
      r.TidbCluster.Spec.PD.Image = "pingcap/pd:v4.0.0" ∧
      r.TidbCluster.Spec.TiKV.Image = "registry.local/tikv:dev" ∧
      r.TidbCluster.Spec.TiDB.Image = "pingcap/tidb:v4.0.0" :=
  have hw := (role_images { Context := { DockerRepository := "pingcap" } } "ns1" "c1"
    { ImageVersion := "v4.0.0", TiKVImage := "registry.local/tikv:dev" } _ rfl).1
  ⟨_, rfl, hw.1.trans (by decide), hw.2.1.trans (by decide), hw.2.2.trans (by decide)⟩

/-- C18: for `TiFlashReplicas > 0` the build returns with a TiFlash role whose
image is `buildImage "tiflash" "" TiFlashImage`: the override when it is not
empty, and otherwise `[HubAddress/]DockerRepository/tiflash:` with an empty
tag, the same for every `ImageVersion`; its replica count is
`int32 TiFlashReplicas`, which is `TiFlashReplicas` below `2^31`. -/
theorem tiflash_image_ignores_version (env : Env) (ns name : String)
    (cfg : fixture.TiDBClusterConfig) (hpos : 0 < cfg.TiFlashReplicas) :
    ∃ r t, RecommendedTiDBCluster env ns name cfg = .ok r ∧
      r.TidbCluster.Spec.TiFlash = some t ∧
      t.Image = buildImage env.Context "tiflash" "" cfg.TiFlashImage ∧
      (cfg.TiFlashImage ≠ "" → t.Image = cfg.TiFlashImage) ∧
      (cfg.TiFlashImage = "" →
        t.Image = (if env.Context.HubAddress ≠ "" then env.Context.HubAddress ++ "/" else "") ++
          env.Context.DockerRepository ++ "/tiflash:") ∧
      (∀ (v : String) (r2 : Recommendation) (t2 : v1alpha1.TiFlashSpec),
        RecommendedTiDBCluster env ns name { cfg with ImageVersion := v } = .ok r2 →
          r2.TidbCluster.Spec.TiFlash = some t2 → t2.Image = t.Image) ∧
      t.Replicas = int32 cfg.TiFlashReplicas ∧
      (cfg.TiFlashReplicas < 2 ^ 31 → t.Replicas = cfg.TiFlashReplicas) := by
  obtain ⟨r, h⟩ := (build_isOk_iff env ns name cfg).2 (Or.inl hpos)
  obtain ⟨r0, r1, h0, h1, hl⟩ := build_decompose env ns name cfg r h
  have hsome : r.TidbCluster.Spec.TiFlash.isSome = true := by
    have hf := (roleLoop_frame env _ r1 r hl).1
    have hs := congrArg (fun x => x.TidbCluster.Spec.TiFlash.isSome) hf
    simp only [Recommendation.withoutChaos, Option.isSome_map'] at hs
    rw [hs]
    exact (preLoop_tiflash env ns name cfg r0 r1 h0 h1).1.2 hpos
  obtain ⟨t, ht⟩ := Option.isSome_iff_exists.1 hsome
  obtain ⟨himg, hrep⟩ := (build_identity env ns name cfg r h).2.2.2.2 t ht
  refine ⟨r, t, h, ht, himg, fun hne => ?_, fun he => ?_, fun v r2 t2 h2 ht2 => ?_, hrep,
    fun hlt => ?_⟩
  · rw [himg]
    exact buildImage_of_ne_empty _ _ _ _ hne
  · rw [himg, he, buildImage_of_empty]
    simp only [String.append_assoc]
    rfl
  · rw [himg]
    exact ((build_identity env ns name _ r2 h2).2.2.2.2 t2 ht2).1
  · rw [hrep]
    exact int32_of_inRange _ (by omega) hlt

/-- Witness of C18: version "v4.0.0", no TiFlash override and two replicas give
the image "pingcap/tiflash:" and two replicas. -/
theorem tiflash_image_ignores_version_witness :
    ∃ r t, RecommendedTiDBCluster { Context := { DockerRepository := "pingcap" } } "ns1" "c1"
        { ImageVersion := "v4.0.0", TiFlashReplicas := 2 } = .ok r ∧
      r.TidbCluster.Spec.TiFlash = some t ∧ t.Image = "pingcap/tiflash:" ∧ t.Replicas = 2 := by
  obtain ⟨r, t, h, ht, -, -, himg, -, -, hrep⟩ :=
    tiflash_image_ignores_version { Context := { DockerRepository := "pingcap" } } "ns1" "c1"
      { ImageVersion := "v4.0.0", TiFlashReplicas := 2 } (by decide)
  exact ⟨r, t, h, ht, (himg rfl).trans (by decide), hrep (by decide)⟩

/-- C19: each of `PDReplicas`, `TiKVReplicas` and `TiDBReplicas` sets the
replica count of its own role to its argument, the last call wins, and nothing
else changes: setting the count back to the old value gives the old
Recommendation, and the other roles, the rest of the own role, the monitor, the
service and the documents are those of the argument. `EnablePump` on a
Recommendation without a Pump role sets `Spec.Pump` to the given replicas, the
base image "pingcap/tidb-binlog" and the medium profile, and changes nothing
else. -/
theorem replica_setters_frame (env : Env) (r : Recommendation) (n m : Int) :
    ((r.PDReplicas n).TidbCluster.Spec.PD.Replicas = n ∧
      (r.PDReplicas n).PDReplicas m = r.PDReplicas m ∧
      (r.PDReplicas n).PDReplicas r.TidbCluster.Spec.PD.Replicas = r ∧
      (r.PDReplicas n).TidbCluster.Spec.TiKV = r.TidbCluster.Spec.TiKV ∧
      (r.PDReplicas n).TidbCluster.Spec.TiDB = r.TidbCluster.Spec.TiDB ∧
      (r.PDReplicas n).TidbCluster.Spec.PD.toComponentSpec =
        r.TidbCluster.Spec.PD.toComponentSpec ∧
      (r.PDReplicas n).TidbCluster.Spec.PD.toResourceRequirements =
        r.TidbCluster.Spec.PD.toResourceRequirements ∧
      (r.PDReplicas n).TidbMonitor = r.TidbMonitor ∧
      (r.PDReplicas n).toService = r.toService ∧
      (r.PDReplicas n).InjectionConfigMaps = r.InjectionConfigMaps) ∧
    ((r.TiKVReplicas n).TidbCluster.Spec.TiKV.Replicas = n ∧
      (r.TiKVReplicas n).TiKVReplicas m = r.TiKVReplicas m ∧
      (r.TiKVReplicas n).TiKVReplicas r.TidbCluster.Spec.TiKV.Replicas = r ∧
      (r.TiKVReplicas n).TidbCluster.Spec.PD = r.TidbCluster.Spec.PD ∧
      (r.TiKVReplicas n).TidbCluster.Spec.TiDB = r.TidbCluster.Spec.TiDB ∧
      (r.TiKVReplicas n).TidbCluster.Spec.TiKV.toComponentSpec =
        r.TidbCluster.Spec.TiKV.toComponentSpec ∧
      (r.TiKVReplicas n).TidbCluster.Spec.TiKV.toResourceRequirements =
        r.TidbCluster.Spec.TiKV.toResourceRequirements ∧
      (r.TiKVReplicas n).TidbMonitor = r.TidbMonitor ∧
      (r.TiKVReplicas n).toService = r.toService ∧
      (r.TiKVReplicas n).InjectionConfigMaps = r.InjectionConfigMaps) ∧
    ((r.TiDBReplicas n).TidbCluster.Spec.TiDB.Replicas = n ∧
      (r.TiDBReplicas n).TiDBReplicas m = r.TiDBReplicas m ∧
      (r.TiDBReplicas n).TiDBReplicas r.TidbCluster.Spec.TiDB.Replicas = r ∧
      (r.TiDBReplicas n).TidbCluster.Spec.PD = r.TidbCluster.Spec.PD ∧
      (r.TiDBReplicas n).TidbCluster.Spec.TiKV = r.TidbCluster.Spec.TiKV ∧
      (r.TiDBReplicas n).TidbCluster.Spec.TiDB.toComponentSpec =
        r.TidbCluster.Spec.TiDB.toComponentSpec ∧
      (r.TiDBReplicas n).TidbCluster.Spec.TiDB.toResourceRequirements =
        r.TidbCluster.Spec.TiDB.toResourceRequirements ∧
      (r.TiDBReplicas n).TidbMonitor = r.TidbMonitor ∧
      (r.TiDBReplicas n).toService = r.toService ∧
      (r.TiDBReplicas n).InjectionConfigMaps = r.InjectionConfigMaps) ∧
    (r.TidbCluster.Spec.Pump = none →
      (r.EnablePump env n).TidbCluster.Spec.Pump =
          some { Replicas := n, BaseImage := "pingcap/tidb-binlog",
                 toResourceRequirements := env.Medium } ∧
        { r.EnablePump env n with TidbCluster.Spec.Pump := none } = r) := by
  refine ⟨⟨rfl, rfl, rfl, rfl, rfl, rfl, rfl, rfl, rfl, rfl⟩,
    ⟨rfl, rfl, rfl, rfl, rfl, rfl, rfl, rfl, rfl, rfl⟩,
    ⟨rfl, rfl, rfl, rfl, rfl, rfl, rfl, rfl, rfl, rfl⟩, fun hp => ?_⟩
  have he : r.EnablePump env n =
      { r with
        TidbCluster.Spec.Pump := some {
          Replicas := n
          BaseImage := "pingcap/tidb-binlog"
          toResourceRequirements := env.Medium } } := by
    unfold Recommendation.EnablePump
    rw [if_pos hp]
  rw [he]
  refine ⟨rfl, ?_⟩
  obtain ⟨svc, ⟨meta, ⟨pd, tidb, tikv, tf, pump, tz, pol, en, pull⟩⟩, mon, cms⟩ := r
  cases hp
  rfl

/-- Witness of C19: on a freshly built Recommendation, `TiKVReplicas 5` after
`TiKVReplicas 4` leaves 5 TiKV and 3 PD replicas, and `EnablePump 2` adds a Pump
role with two replicas. -/
theorem replica_setters_frame_witness :
    ∃ r, RecommendedTiDBCluster {} "ns1" "c1" {} = .ok r ∧
      ((r.TiKVReplicas 4).TiKVReplicas 5).TidbCluster.Spec.TiKV.Replicas = 5 ∧
      ((r.TiKVReplicas 4).TiKVReplicas 5).TidbCluster.Spec.PD.Replicas = 3 ∧
      (r.EnablePump {} 2).TidbCluster.Spec.Pump =
        some { Replicas := 2, BaseImage := "pingcap/tidb-binlog" } :=
  ⟨_, rfl, rfl, rfl, ((replica_setters_frame {} _ 2 0).2.2.2 rfl).1⟩

end Tipocket
